import Mathlib

/-!
A shallow embedding of the XenonLang front end and evaluator
(src/src/lexer.py, src/src/parser.py, src/src/ast.py, src/src/error.py,
src/src/interpreter.py) in Lean 4, together with theorems settling the
frozen claims about the natural-language specification.

Conventions of the embedding:
 - Python `int` values are `Int`; Python `float` values are modelled by the
   exact fraction type `PyFloat` (every float arising in the verified
   programs is exactly representable).
 - Python exceptions `RuntimeError` / `TypeError` raised by the interpreter
   are the `Err.rt` / `Err.ty` results; other Python exceptions
   (e.g. `ZeroDivisionError`) are `Err.py`.  All carry the message string
   produced by `format_error`, exactly as in the source.
 - The interpreter's mutable state (`call_stack`, registries, the
   `print` stream) is threaded explicitly through a fuel-based evaluator.
   The scope stack is stored innermost-frame-first, mirroring the
   `reversed(self.call_stack)` iteration order of the source.
 - Python dicts are association lists with Python's update-in-place /
   append-if-new semantics (`aset`).
-/

namespace Xenon

/-- Python `str.rstrip()` default whitespace characters (the subset that can
occur in the verified sources). -/
def isPyWs (c : Char) : Bool :=
  c == ' ' || c == '\t' || c == '\n' || c == '\r'

/-- Python `str.rstrip()`. -/
def pyRstrip (s : String) : String :=
  String.mk ((s.toList.reverse.dropWhile isPyWs).reverse)

/-- Split a character list at every `'\n'`, keeping empty chunks (the
semantics of `str.split('\n')`); the result is always nonempty. -/
def splitOnNl : List Char → List (List Char)
  | [] => [[]]
  | c :: rest =>
    if c == '\n' then [] :: splitOnNl rest
    else
      match splitOnNl rest with
      | h :: t => (c :: h) :: t
      | [] => [[c]]

/-- Python `str.splitlines()` restricted to `'\n'` line ends (the only line
end appearing in the verified sources): `""` gives `[]`, a trailing newline
does not produce a final empty line. -/
def pySplitlines (s : String) : List String :=
  match s.toList with
  | [] => []
  | l =>
    let parts := (splitOnNl l).map String.mk
    if l.getLast? == some '\n' then parts.dropLast else parts

/-- Mirrors `format_error` of src/src/error.py. -/
def format_error (error_type message filename source : String)
    (line column : Nat) : String :=
  let lines := pySplitlines source
  let pair :=
    if 1 ≤ line ∧ line ≤ lines.length then
      (pyRstrip (lines.getD (line - 1) ""),
       String.mk (List.replicate (column - 1) ' ') ++ "^")
    else ("<unknown>", "")
  error_type ++ ": " ++ message ++ "\n" ++
    "  File: " ++ filename ++ "\n" ++
    "  Line: " ++ toString line ++ ", Column: " ++ toString column ++ "\n" ++
    "  " ++ pair.1 ++ "\n" ++
    "  " ++ pair.2

/-- Mirrors `Token` of src/src/token.py: a token-type name, the matched text
and its source position.  `is_nullable` mirrors the dynamic `is_nullable`
attribute read by `check_type` via `getattr(type_token, 'is_nullable', False)`
(absent on plain tokens, hence the `false` default). -/
structure Token where
  type : String
  value : String
  position : Nat := 0
  line : Nat := 1
  column : Nat := 1
  is_nullable : Bool := false
deriving Repr, DecidableEq

/-- Mirrors `ParamNode` of src/src/ast.py.  `type_token` is the plain token
the parser stores (src/src/parser.py:315-332); the `Callable[[bool], Token]`
annotation in ast.py is never enforced, so when the interpreter later calls
this field it raises `TypeError: 'Token' object is not callable`. -/
structure ParamNode where
  name : Token
  type_token : Option Token
  is_nullable : Bool := false
deriving Repr, DecidableEq

/-- Mirrors `ImportNode` of src/src/ast.py. -/
structure ImportStmt where
  module : List Token
  names : List Token := []
  aliasTok : Option Token := Option.none
deriving Repr, DecidableEq

/-- Mirrors the AST node classes of src/src/ast.py that the interpreter
dispatches on (src/src/interpreter.py:30-122).  Nodes that store a
`VariableNode` (assignment targets, declaration names, call names) store
that node's token directly.  Declaration/return/catch `type_token` fields
are the plain tokens the parser stores (src/src/parser.py:138,271,315,332);
the `Callable[[bool], Token]` annotations in ast.py are never enforced, so
the interpreter's `node.type_token(False)` calls on them raise the host
`TypeError: 'Token' object is not callable` (see `tokenCallErr`). -/
inductive Expr where
  | numberN (token : Token)
  | stringN (token : Token)
  | charN (token : Token)
  | booleanN (token : Token)
  | nullN (token : Token)
  | variableN (varTok : Token)
  | assignN (token : Token) (varTok : Token) (expression : Expr)
  | varDeclN (var_token : Token) (varTok : Token) (type_token : Option Token)
      (expr : Option Expr) (modifiers : List Token)
  | valDeclN (val_token : Token) (varTok : Token) (type_token : Option Token)
      (expr : Expr) (modifiers : List Token)
  | constDeclN (const_token : Token) (varTok : Token) (type_token : Option Token)
      (expr : Expr) (modifiers : List Token)
  | binOpN (operator : Token) (left_node right_node : Expr)
  | unaryOpN (operator : Token) (operand : Expr) (isPost : Bool)
  | nullCoalesceN (left_node right_node : Expr)
  | elvisN (left_node right_node : Expr)
  | ifN (condition : Expr) (then_branch : Expr) (else_branch : Option Expr)
  | whileN (condition : Expr) (body : Expr)
  | doWhileN (body : Expr) (condition : Expr)
  | forN (init : Option Expr) (cond : Option Expr) (step : Option Expr) (body : Expr)
  | switchN (expression : Expr) (cases : List (Expr × Expr)) (default : Option Expr)
  | tryN (try_block : Expr) (catches : List (Token × Option Token × Expr))
      (finally_block : Option Expr)
  | throwN (expression : Expr)
  | funcDefN (name : Token) (params : List ParamNode) (return_type : Option Token)
      (body : Expr) (modifiers : List Token)
  | funcCallN (func : Token) (args : List Expr)
  | memberCallN (obj : Expr) (method : Token) (args : List Expr)
  | lambdaN (params : List ParamNode) (body : Expr)
  | classN (name : Token) (superclass : Option Token) (interfaces : List Token)
      (members : List Expr) (modifiers : List Token)
  | interfaceN (name : Token) (members : List Expr) (modifiers : List Token)
  | enumN (name : Token) (values : List Token) (members : List Expr)
  | returnN (expression : Option Expr)
  | printN (expression : Expr)
  | instanceOfN (expression : Expr) (type_token : Token)
  | newN (type_token : Token) (args : List Expr)
  | blockN (statements : List Expr)
  | breakN
  | continueN
  | thisN (token : Token)
  | superN (token : Token)
  | importN (imp : ImportStmt)
  | programN (imports : List ImportStmt) (statements : List Expr)
deriving Repr

/-- Python `float` values, modelled as exact fractions (every float arising
in the verified programs is exactly representable).  The numerator/denominator
pair is kept unnormalized — the smart constructors only keep the denominator
positive — so that every operation stays kernel-reducible. -/
structure PyFloat where
  num : Int
  den : Int
deriving Repr, DecidableEq

/-- Build a fraction with a positive denominator. -/
def mkF (n d : Int) : PyFloat := if d < 0 then ⟨-n, -d⟩ else ⟨n, d⟩

/-- The float of an integer. -/
def ofIntF (n : Int) : PyFloat := ⟨n, 1⟩

/-- Float addition. -/
def addF (a b : PyFloat) : PyFloat := ⟨a.num * b.den + b.num * a.den, a.den * b.den⟩

/-- Float subtraction. -/
def subF (a b : PyFloat) : PyFloat := ⟨a.num * b.den - b.num * a.den, a.den * b.den⟩

/-- Float multiplication. -/
def mulF (a b : PyFloat) : PyFloat := ⟨a.num * b.num, a.den * b.den⟩

/-- Float division (callers guard against a zero divisor, as the source
does). -/
def divF (a b : PyFloat) : PyFloat := mkF (a.num * b.den) (a.den * b.num)

/-- Float negation. -/
def negF (a : PyFloat) : PyFloat := ⟨-a.num, a.den⟩

/-- Float equality by cross-multiplication. -/
def beqF (a b : PyFloat) : Bool := a.num * b.den == b.num * a.den

/-- Float strict order by cross-multiplication (denominators positive). -/
def bltF (a b : PyFloat) : Bool := a.num * b.den < b.num * a.den

/-- Three-way float comparison. -/
def cmpF (a b : PyFloat) : Ordering :=
  if bltF a b then .lt else if beqF a b then .eq else .gt

/-- Python `math.floor` of a float. -/
def floorF (a : PyFloat) : Int := Int.fdiv a.num a.den

/-- Python float `%`: `a - b * floor(a / b)` (sign of the divisor). -/
def fmodF (a b : PyFloat) : PyFloat := subF a (mulF b (ofIntF (floorF (divF a b))))

/-- The dynamically tagged runtime values of the interpreter.  Python `int`,
`float`, `bool`, `str`, `None`, object instances (dicts with a `__class__`
key), and the callables produced by `interpret_lambda` (which are never
invoked by any interpreter code path; they are inert values here). -/
inductive Value where
  | int (n : Int)
  | float (q : PyFloat)
  | bool (b : Bool)
  | str (s : String)
  | null
  | obj (fields : List (String × Value))
  | func (params : List ParamNode) (body : Expr)
deriving Repr

/-- Python `type(value).__name__` for the modelled values. -/
def pyTypeName : Value → String
  | .int _ => "int"
  | .float _ => "float"
  | .bool _ => "bool"
  | .str _ => "str"
  | .null => "NoneType"
  | .obj _ => "dict"
  | .func _ _ => "function"

/-- Numeric view used by Python arithmetic: `bool` participates as `0`/`1`.
It is also Python's `isinstance(v, (int, float))`. -/
def toFloatV : Value → Option PyFloat
  | .int n => some (ofIntF n)
  | .float q => some q
  | .bool b => some (ofIntF (if b then 1 else 0))
  | _ => Option.none

/-- Integer view: Python `isinstance(v, int)` is true for `int` and `bool`. -/
def toIntV : Value → Option Int
  | .int n => some n
  | .bool b => some (if b then 1 else 0)
  | _ => Option.none

/-- Python truthiness of the modelled values. -/
def pyTruthy : Value → Bool
  | .int n => n != 0
  | .float q => q.num != 0
  | .bool b => b
  | .str s => s != ""
  | .null => false
  | .obj fields => !fields.isEmpty
  | .func _ _ => true

mutual
/-- Python `==` on the modelled values: cross-type numeric equality for
`int`/`float`/`bool`, structural equality for strings, `None`, and dicts.
Function objects compare by identity in Python; the interpreter never
compares two lambda values that could be identical, so `false` is the
faithful observable answer.  Dict equality is order-insensitive in Python;
instances of the same class always list their fields in the same member
order here, so pairwise comparison is observationally equivalent. -/
def pyEq : Value → Value → Bool
  | .str a, .str b => a == b
  | .null, .null => true
  | .obj a, .obj b => pyEqFields a b
  | .func _ _, _ => false
  | _, .func _ _ => false
  | a, b =>
    match toFloatV a, toFloatV b with
    | some x, some y => beqF x y
    | _, _ => false
termination_by structural a _ => a

/-- Pairwise field comparison for `pyEq` on dicts. -/
def pyEqFields : List (String × Value) → List (String × Value) → Bool
  | [], [] => true
  | (k, v) :: rest, (k', v') :: rest' =>
    k == k' && pyEq v v' && pyEqFields rest rest'
  | _, _ => false
termination_by structural l _ => l
end

/-- Decimal rendering of an exact fraction whose denominator divides a power
of ten, used for Python `str(float)`; every float printed by the verified
programs is of this shape. -/
def ratFracDigits : Nat → Nat → Nat → String
  | 0, _, _ => ""
  | _, 0, _ => ""
  | fuel + 1, rest, den =>
    let d := rest * 10 / den
    toString d ++ ratFracDigits fuel (rest * 10 % den) den

/-- Python `str` of a float value (exact-decimal cases). -/
def pyFloatStr (q : PyFloat) : String :=
  let sgn := if q.num < 0 then "-" else ""
  let a := q.num.natAbs
  let b := q.den.toNat
  if a % b == 0 then sgn ++ toString (a / b) ++ ".0"
  else sgn ++ toString (a / b) ++ "." ++ ratFracDigits 30 (a % b) b

mutual
/-- Python `str(value)` as used by `print`, by string concatenation in
`interpret_binary_op`, and by `interpret_throw`. -/
def pyStr : Value → String
  | .int n => toString n
  | .float q => pyFloatStr q
  | .bool b => if b then "True" else "False"
  | .str s => s
  | .null => "None"
  | .obj fields => "\x7b" ++ pyStrFields fields ++ "\x7d"
  | .func _ _ => "<function>"
termination_by structural v => v

/-- Comma-joined entry rendering of dicts, with Python `repr` quoting for
string values. -/
def pyStrFields : List (String × Value) → String
  | [] => ""
  | [(k, .str s)] => "'" ++ k ++ "': '" ++ s ++ "'"
  | [(k, v)] => "'" ++ k ++ "': " ++ pyStr v
  | (k, .str s) :: rest => "'" ++ k ++ "': '" ++ s ++ "', " ++ pyStrFields rest
  | (k, v) :: rest => "'" ++ k ++ "': " ++ pyStr v ++ ", " ++ pyStrFields rest
termination_by structural l => l
end

/-- Python string containment `a in b` (substring test). -/
def substrIn (a b : String) : Bool :=
  (b.toList.tails).any (fun t => a.toList.isPrefixOf t)

/-- Association-list lookup: Python `d[k]` / `k in d`. -/
def aget {α : Type} (d : List (String × α)) (k : String) : Option α :=
  (d.find? (fun p => p.1 == k)).map (fun p => p.2)

/-- Association-list store with Python-dict semantics: update in place if the
key is present, append otherwise. -/
def aset {α : Type} : List (String × α) → String → α → List (String × α)
  | [], k, v => [(k, v)]
  | (k', v') :: rest, k, v =>
    if k' == k then (k, v) :: rest else (k', v') :: aset rest k v

/-- Digits-to-Nat helper for the numeric literal parsers. -/
def digitsToNat (l : List Char) : Nat :=
  l.foldl (fun acc c => acc * 10 + (c.toNat - '0'.toNat)) 0

/-- Python `int(s)` on strings matched by the NUMBER pattern. -/
def pyParseInt (s : String) : Option Int :=
  match s.toList with
  | '-' :: rest =>
    if rest ≠ [] ∧ rest.all Char.isDigit then
      some (-(Int.ofNat (digitsToNat rest))) else Option.none
  | l =>
    if l ≠ [] ∧ l.all Char.isDigit then
      some (Int.ofNat (digitsToNat l)) else Option.none

/-- Python `float(s)` on strings matched by the NUMBER pattern:
optional sign, integer part, optional fraction, optional exponent. -/
def pyParseFloat (s : String) : Option PyFloat :=
  let l := s.toList
  let (sgn, l) := match l with
    | '-' :: rest => ((-1 : Int), rest)
    | _ => ((1 : Int), l)
  let ip := l.takeWhile Char.isDigit
  let l := l.dropWhile Char.isDigit
  if ip = [] then Option.none
  else
    let (fr, l) := match l with
      | '.' :: rest => (rest.takeWhile Char.isDigit, rest.dropWhile Char.isDigit)
      | _ => ([], l)
    let (expOk, esgn, ed, l) := match l with
      | 'e' :: '+' :: rest => (true, (1 : Int), rest.takeWhile Char.isDigit, rest.dropWhile Char.isDigit)
      | 'e' :: '-' :: rest => (true, (-1 : Int), rest.takeWhile Char.isDigit, rest.dropWhile Char.isDigit)
      | 'e' :: rest => (true, (1 : Int), rest.takeWhile Char.isDigit, rest.dropWhile Char.isDigit)
      | 'E' :: '+' :: rest => (true, (1 : Int), rest.takeWhile Char.isDigit, rest.dropWhile Char.isDigit)
      | 'E' :: '-' :: rest => (true, (-1 : Int), rest.takeWhile Char.isDigit, rest.dropWhile Char.isDigit)
      | 'E' :: rest => (true, (1 : Int), rest.takeWhile Char.isDigit, rest.dropWhile Char.isDigit)
      | _ => (false, (1 : Int), [], l)
    if l ≠ [] then Option.none
    else if expOk ∧ ed = [] then Option.none
    else
      let base : Int := sgn * (Int.ofNat (digitsToNat (ip ++ fr)))
      let eN := digitsToNat ed
      if esgn ≥ 0 then
        some ⟨base * (10 : Int) ^ eN, (10 : Int) ^ fr.length⟩
      else
        some ⟨base, (10 : Int) ^ fr.length * (10 : Int) ^ eN⟩

/-- Python `s[1:-1]`, used to strip the quotes kept in string/char tokens. -/
def stripEnds (s : String) : String :=
  String.mk ((s.toList.drop 1).dropLast)

/-- The Python exceptions thrown by the interpreter: `RuntimeError`,
`TypeError`, and any other host exception (`ZeroDivisionError`, ...). -/
inductive Err where
  | rt (msg : String)
  | ty (msg : String)
  | py (msg : String)
deriving Repr, DecidableEq

/-- Python `str(e)` on a caught exception: its message. -/
def errStr : Err → String
  | .rt m => m
  | .ty m => m
  | .py m => m

/-- The `BreakNode()` / `ContinueNode()` objects that `interpret` returns and
threads upward as control-flow signals (src/src/interpreter.py:107-110).
`ReturnNode` is absent: the dispatch at line 97-98 evaluates a return
statement to its expression's value, so a return never travels as a signal. -/
inductive Sig where
  | brk
  | cont
deriving Repr, DecidableEq

/-- Result of interpreting one node: a value (Python `None` is `Value.null`),
a propagating break/continue signal, a raised exception, or fuel exhaustion
(an artifact of the fuel-based embedding, not a behaviour of the source). -/
inductive Res where
  | val (v : Value)
  | sig (s : Sig)
  | err (e : Err)
  | fuelOut
deriving Repr

/-- A registered function definition (`self.functions[name] = node`). -/
structure FuncDef where
  name : Token
  params : List ParamNode
  return_type : Option Token
  body : Expr
  modifiers : List Token
deriving Repr

/-- A registered class definition (`self.classes[name] = node`). -/
structure ClassDef where
  name : Token
  superclass : Option Token
  interfaces : List Token
  members : List Expr
  modifiers : List Token
deriving Repr

/-- A registered interface definition. -/
structure InterfaceDef where
  name : Token
  members : List Expr
  modifiers : List Token
deriving Repr

/-- A registered enum definition. -/
structure EnumDef where
  name : Token
  values : List Token
  members : List Expr
deriving Repr

/-- One scope frame of the call stack: a name-to-value dict. -/
abbrev Frame := List (String × Value)

/-- The interpreter state (src/src/interpreter.py:9-28).  `scopes` is the
`call_stack` stored innermost-frame-first (the source iterates it as
`reversed(self.call_stack)`); `self.variables` is its head frame.
`super_class_stack` is stored most-recent-first (the source appends and pops
at the end and peeks `[-1]`).  `output` collects the lines passed to
`print`, the interpreter's observable effect. -/
structure St where
  source : String
  filename : String
  scopes : List Frame
  functions : List (String × FuncDef) := []
  classes : List (String × ClassDef) := []
  interfaces : List (String × InterfaceDef) := []
  enums : List (String × EnumDef) := []
  imports : List (String × String) := []
  current_class : Option String := Option.none
  super_class_stack : List String := []
  output : List String := []
deriving Repr

/-- The state of a fresh `Interpreter(source, filename)`: one empty global
frame. -/
def initSt (source filename : String) : St :=
  { source := source, filename := filename, scopes := [[]] }

/-- Mirrors `push_scope` (src/src/interpreter.py:22-24). -/
def push_scope (st : St) : St :=
  { st with scopes := [] :: st.scopes }

/-- Mirrors `pop_scope` (src/src/interpreter.py:26-28).  When the stack
empties, `self.variables` becomes a fresh detached dict invisible to every
lookup; writing to it is observationally a no-op, which is how the empty
case is modelled. -/
def pop_scope (st : St) : St :=
  { st with scopes := st.scopes.tail }

/-- Mirrors `self.variables[name] = value`: a write to the innermost frame. -/
def declare (st : St) (name : String) (v : Value) : St :=
  match st.scopes with
  | [] => st
  | f :: rest => { st with scopes := aset f name v :: rest }

/-- Innermost-to-outermost search of the scope stack. -/
def lookup_scopes : List Frame → String → Option Value
  | [], _ => Option.none
  | f :: rest, name =>
    match aget f name with
    | some v => some v
    | Option.none => lookup_scopes rest name

/-- Mirrors `get_variable` (src/src/interpreter.py:124-135). -/
def get_variable (st : St) (name : String) (line column : Nat) : Except Err Value :=
  match lookup_scopes st.scopes name with
  | some v => Except.ok v
  | Option.none => Except.error (.rt (format_error "RuntimeError"
      ("Undefined variable: " ++ name) st.filename st.source line column))

/-- Innermost-to-outermost update of the first frame binding the name;
`Option.none` when no frame binds it. -/
def set_in_scopes : List Frame → String → Value → Option (List Frame)
  | [], _, _ => Option.none
  | f :: rest, name, v =>
    if (aget f name).isSome then some (aset f name v :: rest)
    else (set_in_scopes rest name v).map (fun rest' => f :: rest')

/-- Mirrors `set_variable` (src/src/interpreter.py:137-149): update the
innermost frame already binding `name`, or raise `RuntimeError` without
creating any binding. -/
def set_variable (st : St) (name : String) (v : Value) (line column : Nat) :
    Except Err St :=
  match set_in_scopes st.scopes name v with
  | some scopes' => Except.ok { st with scopes := scopes' }
  | Option.none => Except.error (.rt (format_error "RuntimeError"
      ("Undefined variable: " ++ name) st.filename st.source line column))

/-- Mirrors `interpret_import` (src/src/interpreter.py:151-160). -/
def interpret_import (st : St) (node : ImportStmt) : St :=
  let module_name := String.intercalate "." (node.module.map (fun t => t.value))
  if node.names ≠ [] then
    { st with imports := (node.names.foldl
        (fun d n => aset d n.value (module_name ++ "." ++ n.value)) st.imports) }
  else
    match node.aliasTok with
    | some a => { st with imports := aset st.imports a.value module_name }
    | Option.none => { st with imports := aset st.imports module_name module_name }

/-- Mirrors `check_type` (src/src/interpreter.py:214-305).  Returns the
raised exception, or `Option.none` when the check passes.  Every call site
first invokes the stored annotation `Token` as a callable and raises
`tokenCallErr` there, so on the interpreter's reachable paths this function
is dead code; it is kept as the model of the source function itself. -/
def check_type (st : St) (value : Value) (type_token : Token) : Option Err :=
  let expected0 := type_token.value
  let expected := if expected0 == "str" then "string" else expected0
  let tyErr := fun (msg : String) => some (Err.ty (format_error "TypeError" msg
      st.filename st.source type_token.line type_token.column))
  match value with
  | .null =>
    if expected ≠ "void" then
      if !type_token.is_nullable then
        tyErr ("Expected " ++ expected ++ ", got None")
      else Option.none
    else Option.none
  | v =>
    if expected == "float" ∨ expected == "double" then
      match toFloatV v with
      | some _ => Option.none
      | Option.none => tyErr ("Expected " ++ expected ++ ", got " ++ pyTypeName v)
    else if expected == "int" then
      match toIntV v with
      | some _ => Option.none
      | Option.none => tyErr ("Expected int, got " ++ pyTypeName v)
    else if expected == "string" then
      match v with
      | .str _ => Option.none
      | _ => tyErr ("Expected string, got " ++ pyTypeName v)
    else if expected == "boolean" then
      match v with
      | .bool _ => Option.none
      | _ => tyErr ("Expected boolean, got " ++ pyTypeName v)
    else if expected == "void" then
      tyErr ("Expected void, got " ++ pyTypeName v)
    else if expected == "any" then
      Option.none
    else if type_token.type == "VARIABLE" then
      match v with
      | .obj fields =>
        match aget fields "__class__" with
        | some (.str cn) =>
          if cn == expected then Option.none
          else tyErr ("Expected class " ++ expected ++ ", got " ++ pyTypeName v)
        | _ => tyErr ("Expected class " ++ expected ++ ", got " ++ pyTypeName v)
      | _ => tyErr ("Expected class " ++ expected ++ ", got " ++ pyTypeName v)
    else
      some (Err.rt (format_error "RuntimeError" ("Unknown type: " ++ expected)
        st.filename st.source type_token.line type_token.column))

/-- Mirrors `check_modifiers` (src/src/interpreter.py:190-212). -/
def check_modifiers (st : St) (modifiers : List Token) (line column : Nat) :
    Option Err :=
  match st.current_class with
  | Option.none =>
    match modifiers.find? (fun m => m.value == "private" || m.value == "protected") with
    | some m => some (Err.rt (format_error "RuntimeError"
        ("Modifier '" ++ m.value ++ "' is only allowed inside classes")
        st.filename st.source line column))
    | Option.none => Option.none
  | some cur =>
    if modifiers.any (fun m => m.value == "protected")
        ∧ !(st.super_class_stack.any (fun sc => substrIn cur sc)) then
      some (Err.rt (format_error "RuntimeError"
        "Protected access is only allowed within the class or its subclasses"
        st.filename st.source line column))
    else Option.none

/-- A located `RuntimeError` result at an operator token. -/
def rtAt (st : St) (tok : Token) (msg : String) : Res :=
  .err (.rt (format_error "RuntimeError" msg st.filename st.source tok.line tok.column))

/-- A located formatted `TypeError` message at an operator token (the text of
the exception the source raises inside its `try` and then re-wraps). -/
def tyMsgAt (st : St) (tok : Token) (msg : String) : String :=
  format_error "TypeError" msg st.filename st.source tok.line tok.column

/-- The `except TypeError` wrapper of `interpret_binary_op`
(src/src/interpreter.py:412-420): any `TypeError` raised inside the `try`
becomes a located `RuntimeError` whose message embeds `str(e)`. -/
def binWrap (st : St) (op : Token) (inner : String) : Res :=
  rtAt st op ("Type error in operation " ++ op.type ++ ": " ++ inner)

/-- Python's message for an unsupported binary operation. -/
def unsupportedMsg (sym : String) (l r : Value) : String :=
  "unsupported operand type(s) for " ++ sym ++ ": '" ++ pyTypeName l ++
    "' and '" ++ pyTypeName r ++ "'"

/-- Python's message for an unsupported comparison. -/
def cmpUnsupportedMsg (sym : String) (l r : Value) : String :=
  "'" ++ sym ++ "' not supported between instances of '" ++ pyTypeName l ++
    "' and '" ++ pyTypeName r ++ "'"

/-- Python binary arithmetic on numbers: `Int` when both operands are
`int`-like (`int`/`bool`), `float` as soon as one side is a float. -/
def numArith (fi : Int → Int → Int) (fq : PyFloat → PyFloat → PyFloat) (l r : Value) :
    Option Value :=
  match toIntV l, toIntV r with
  | some a, some b => some (.int (fi a b))
  | _, _ =>
    match toFloatV l, toFloatV r with
    | some a, some b => some (.float (fq a b))
    | _, _ => Option.none

/-- Python `<`-style comparison: numbers compare numerically (with `bool` as
`0`/`1`), strings lexicographically; anything else is a `TypeError`. -/
def pyCmp (l r : Value) : Option Ordering :=
  match toFloatV l, toFloatV r with
  | some a, some b => some (cmpF a b)
  | _, _ =>
    match l, r with
    | .str a, .str b => some (compare a b)
    | _, _ => Option.none

/-- Python `str * n` repetition (negative counts give the empty string). -/
def strRepeat (s : String) (n : Int) : String :=
  String.join (List.replicate n.toNat s)

/-- Python bitwise results: two `bool`s stay `bool`, otherwise `int`. -/
def bitResult (l r : Value) (fb : Bool → Bool → Bool) (fi : Int → Int → Int) :
    Option Value :=
  match l, r with
  | .bool a, .bool b => some (.bool (fb a b))
  | _, _ =>
    match toIntV l, toIntV r with
    | some a, some b => some (.int (fi a b))
    | _, _ => Option.none

/-- Mirrors `interpret_binary_op` (src/src/interpreter.py:307-420) applied to
the two already-evaluated operand values.  Exceptions raised inside the
source's `try` that are `TypeError`s (both the interpreter's own formatted
raises for the bitwise operators and the host's native ones) are re-raised
as located `RuntimeError`s by the `except TypeError` clause; `RuntimeError`
and `ZeroDivisionError` pass through it. -/
def interpret_binary_op_v (st : St) (op : Token) (l r : Value) : Res :=
  if op.type == "PLUS" then
    match l, r with
    | .str _, _ => .val (.str (pyStr l ++ pyStr r))
    | _, .str _ => .val (.str (pyStr l ++ pyStr r))
    | _, _ =>
      match numArith (· + ·) addF l r with
      | some v => .val v
      | Option.none => binWrap st op (unsupportedMsg "+" l r)
  else if op.type == "MINUS" then
    match numArith (· - ·) subF l r with
    | some v => .val v
    | Option.none => binWrap st op (unsupportedMsg "-" l r)
  else if op.type == "MULTIPLY" then
    match l, r with
    | .str s, _ =>
      match toIntV r with
      | some n => .val (.str (strRepeat s n))
      | Option.none => binWrap st op ("can't multiply sequence by non-int of type '"
          ++ pyTypeName r ++ "'")
    | _, .str s =>
      match toIntV l with
      | some n => .val (.str (strRepeat s n))
      | Option.none => binWrap st op ("can't multiply sequence by non-int of type '"
          ++ pyTypeName l ++ "'")
    | _, _ =>
      match numArith (· * ·) mulF l r with
      | some v => .val v
      | Option.none => binWrap st op (unsupportedMsg "*" l r)
  else if op.type == "DIVIDE" then
    if pyEq r (.int 0) then rtAt st op "Division by zero"
    else
      match toFloatV l, toFloatV r with
      | some a, some b => .val (.float (divF a b))
      | _, _ => binWrap st op (unsupportedMsg "/" l r)
  else if op.type == "MODULO" then
    match l, r with
    | .str _, _ => .err (.py "string formatting by the modulo operator is outside the model")
    | _, _ =>
      match toFloatV l, toFloatV r with
      | some _, some b =>
        if beqF b (ofIntF 0) then .err (.py "ZeroDivisionError")
        else
          match toIntV l, toIntV r with
          | some a, some b' => .val (.int (Int.fmod a b'))
          | _, _ =>
            match toFloatV l with
            | some a => .val (.float (fmodF a b))
            | Option.none => binWrap st op (unsupportedMsg "%" l r)
      | _, _ => binWrap st op (unsupportedMsg "%" l r)
  else if op.type == "EQUAL" then .val (.bool (pyEq l r))
  else if op.type == "NOT_EQUAL" then .val (.bool (!pyEq l r))
  else if op.type == "LESS" then
    match pyCmp l r with
    | some o => .val (.bool (o == Ordering.lt))
    | Option.none => binWrap st op (cmpUnsupportedMsg "<" l r)
  else if op.type == "GREATER" then
    match pyCmp l r with
    | some o => .val (.bool (o == Ordering.gt))
    | Option.none => binWrap st op (cmpUnsupportedMsg ">" l r)
  else if op.type == "LESS_EQUAL" then
    match pyCmp l r with
    | some o => .val (.bool (o ≠ Ordering.gt))
    | Option.none => binWrap st op (cmpUnsupportedMsg "<=" l r)
  else if op.type == "GREATER_EQUAL" then
    match pyCmp l r with
    | some o => .val (.bool (o ≠ Ordering.lt))
    | Option.none => binWrap st op (cmpUnsupportedMsg ">=" l r)
  else if op.type == "AND" then .val (.bool (pyTruthy l && pyTruthy r))
  else if op.type == "OR" then .val (.bool (pyTruthy l || pyTruthy r))
  else if op.type == "BIT_AND" then
    match bitResult l r (· && ·) Int.land with
    | some v => .val v
    | Option.none => binWrap st op (tyMsgAt st op "Bitwise AND requires integers")
  else if op.type == "BIT_OR" then
    match bitResult l r (· || ·) Int.lor with
    | some v => .val v
    | Option.none => binWrap st op (tyMsgAt st op "Bitwise OR requires integers")
  else if op.type == "BIT_XOR" then
    match bitResult l r (fun a b => a != b) Int.xor with
    | some v => .val v
    | Option.none => binWrap st op (tyMsgAt st op "Bitwise XOR requires integers")
  else if op.type == "SHL" then
    match toIntV l, toIntV r with
    | some a, some b =>
      if b < 0 then .err (.py "ValueError: negative shift count")
      else .val (.int (a * (2 : Int) ^ b.toNat))
    | _, _ => binWrap st op (tyMsgAt st op "Left shift requires integers")
  else if op.type == "SHR" then
    match toIntV l, toIntV r with
    | some a, some b =>
      if b < 0 then .err (.py "ValueError: negative shift count")
      else .val (.int (Int.fdiv a ((2 : Int) ^ b.toNat)))
    | _, _ => binWrap st op (tyMsgAt st op "Right shift requires integers")
  else rtAt st op ("Unknown operator: " ++ op.type)

/-- The `except TypeError` wrapper of `interpret_unary_op`
(src/src/interpreter.py:498-506). -/
def unWrap (st : St) (op : Token) (inner : String) : Res :=
  rtAt st op ("Type error in unary operation " ++ op.type ++ ": " ++ inner)

/-- The prefix part of `interpret_unary_op` (src/src/interpreter.py:452-506)
applied to the already-evaluated operand. -/
def interpret_unary_prefix (st : St) (op : Token) (operand : Value) : Res :=
  if op.type == "MINUS" then
    match operand with
    | .int n => .val (.int (-n))
    | .float q => .val (.float (negF q))
    | .bool b => .val (.int (if b then -1 else 0))
    | _ => unWrap st op ("bad operand type for unary -: '" ++ pyTypeName operand ++ "'")
  else if op.type == "NOT" then
    .val (.bool (!pyTruthy operand))
  else if op.type == "BIT_NOT" then
    match toIntV operand with
    | some n => .val (.int (-(n + 1)))
    | Option.none => unWrap st op (tyMsgAt st op "Bitwise NOT requires an integer")
  else if op.type == "INCREMENT" then
    match numArith (· + ·) addF operand (.int 1) with
    | some v => .val v
    | Option.none => unWrap st op (tyMsgAt st op
        ("Increment requires numeric value, got " ++ pyTypeName operand))
  else if op.type == "DECREMENT" then
    match numArith (· - ·) subF operand (.int 1) with
    | some v => .val v
    | Option.none => unWrap st op (tyMsgAt st op
        ("Decrement requires numeric value, got " ++ pyTypeName operand))
  else rtAt st op ("Unknown unary operator: " ++ op.type)

/-- A located `RuntimeError` result at explicit coordinates. -/
def rtFmt (st : St) (msg : String) (line column : Nat) : Res :=
  .err (.rt (format_error "RuntimeError" msg st.filename st.source line column))

/-- A located `TypeError` result at explicit coordinates. -/
def tyFmt (st : St) (msg : String) (line column : Nat) : Res :=
  .err (.ty (format_error "TypeError" msg st.filename st.source line column))

/-- Sequencing: pass a value on to the continuation, propagate signals,
exceptions and fuel exhaustion unchanged. -/
def bindV (step : St × Res) (k : St → Value → St × Res) : St × Res :=
  match step with
  | (st, .val v) => k st v
  | other => other

/-- Python `old_value + d` for the numeric values accepted by the postfix
operators (`isinstance(old_value, (int, float))`, which lets `bool` pass). -/
def pyInc (v : Value) (d : Int) : Value :=
  match v with
  | .int n => .int (n + d)
  | .float q => .float (addF q (ofIntF d))
  | .bool b => .int ((if b then 1 else 0) + d)
  | _ => v

/-- The host `TypeError` raised whenever the interpreter invokes a stored
annotation token as a callable — `node.type_token(False)`,
`param.type_token(False)`, `func.return_type(False)`, `catch.type_token(False)`
(src/src/interpreter.py:169,177,185,619,671,686,753).  The parser stores the
plain `Token` (src/src/parser.py:138,271,315,332) and `Token`
(src/src/token.py) defines no `__call__`, so every such call raises before
any `check_type` runs. -/
def tokenCallErr : Err := .ty "'Token' object is not callable"

/-- Parameter binding loop of `interpret_function_call` / member calls
(src/src/interpreter.py:669-681): per parameter, an annotation makes
`param.type_token(False)` raise `tokenCallErr` (the stored token is not
callable, so `check_type` is never reached), then the non-nullable-`None`
check, then the binding into the current scope.  Returns the state as
mutated up to the first raise. -/
def bind_params : St → List ParamNode → List Value → St × Option Err
  | st, p :: ps, a :: rest =>
    match p.type_token with
    | some _ => (st, some tokenCallErr)
    | Option.none =>
      match a with
      | .null =>
        if !p.is_nullable then
          (st, some (.rt (format_error "RuntimeError"
            ("Parameter " ++ p.name.value ++ " is not nullable")
            st.filename st.source p.name.line p.name.column)))
        else bind_params (declare st p.name.value a) ps rest
      | _ => bind_params (declare st p.name.value a) ps rest
  | st, _, _ => (st, Option.none)

/-- Linear scan of a class's own member list for a method
(src/src/interpreter.py:724-728); the superclass chain is never searched. -/
def find_method : List Expr → String →
    Option (List ParamNode × Option Token × Expr × List Token)
  | [], _ => Option.none
  | .funcDefN nm ps rt0 body mods :: rest, mname =>
    if nm.value == mname then some (ps, rt0, body, mods)
    else find_method rest mname
  | _ :: rest, mname => find_method rest mname

/-- First interface reference not present in the interface registry
(src/src/interpreter.py:822-832). -/
def find_missing_interface (st : St) (l : List Token) : Option Token :=
  l.find? (fun i => (aget st.interfaces i.value).isNone)

/-- The member kinds the class-definition loop interprets
(src/src/interpreter.py:833-835). -/
def class_member_runs : Expr → Bool
  | .varDeclN _ _ _ _ _ => true
  | .valDeclN _ _ _ _ _ => true
  | .constDeclN _ _ _ _ _ => true
  | .funcDefN _ _ _ _ _ => true
  | _ => false

/-- The declaration name token of a field member, for `interpret_new`'s
`instance[member.variable.variable.value]` store. -/
def decl_name? : Expr → Option Token
  | .varDeclN _ v _ _ _ => some v
  | .valDeclN _ v _ _ _ => some v
  | .constDeclN _ v _ _ _ => some v
  | _ => Option.none

/-- The dict display `\x7b'__class__': superclass_name, **this_obj\x7d` of
`interpret_super` (src/src/interpreter.py:938): the spread's keys override
the literal's, so an existing `__class__` entry of `this` wins. -/
def dict_star (sn : String) (fields : Frame) : Frame :=
  fields.foldl (fun d kv => aset d kv.1 kv.2) [("__class__", Value.str sn)]

/-- The class-name key `interpret_member_call` reads from the object's
`__class__` entry (src/src/interpreter.py:868): the stored value is always a
string; any other value would be used as the (stringified) dictionary key. -/
def className : Value → String
  | .str s => s
  | v => pyStr v

mutual
/-- The evaluator: mirrors `Interpreter.interpret`
(src/src/interpreter.py:30-122) and the `interpret_*` methods it dispatches
to, with the mutable interpreter state threaded explicitly and a fuel
argument standing in for the host call stack. -/
def interpret : Nat → St → Expr → St × Res
  | 0, st, _ => (st, .fuelOut)
  | Nat.succ n, st, e =>
    match e with
    | .programN imports stmts =>
      let st1 := imports.foldl interpret_import st
      program_stmts n st1 stmts
    | .importN d => (interpret_import st d, .val .null)
    | .numberN tok =>
      let v := tok.value
      if v.toList.contains '.' ∨ v.toList.contains 'e' ∨ v.toList.contains 'E' then
        match pyParseFloat v with
        | some q => (st, .val (.float q))
        | Option.none => (st, .err (.py "ValueError: could not convert string to float"))
      else
        match pyParseInt v with
        | some i => (st, .val (.int i))
        | Option.none => (st, .err (.py "ValueError: invalid literal for int"))
    | .stringN tok => (st, .val (.str (stripEnds tok.value)))
    | .charN tok => (st, .val (.str (stripEnds tok.value)))
    | .booleanN tok => (st, .val (.bool (tok.value == "true")))
    | .nullN _ => (st, .val .null)
    | .variableN tok =>
      match get_variable st tok.value tok.line tok.column with
      | .ok v => (st, .val v)
      | .error err => (st, .err err)
    | .assignN _ vtok ex =>
      bindV (interpret n st ex) (fun st1 v =>
        match set_variable st1 vtok.value v vtok.line vtok.column with
        | .ok st2 => (st2, .val v)
        | .error err => (st1, .err err))
    | .varDeclN _ vtok tyTok initE mods =>
      bindV (match initE with
             | some e0 => interpret n st e0
             | Option.none => (st, .val .null))
        (fun st1 v =>
          match tyTok with
          | some _ => (st1, .err tokenCallErr)
          | Option.none =>
            match check_modifiers st1 mods vtok.line vtok.column with
            | some err => (st1, .err err)
            | Option.none => (declare st1 vtok.value v, .val v))
    | .valDeclN _ vtok tyTok e0 mods =>
      bindV (interpret n st e0) (fun st1 v =>
        match tyTok with
        | some _ => (st1, .err tokenCallErr)
        | Option.none =>
          match check_modifiers st1 mods vtok.line vtok.column with
          | some err => (st1, .err err)
          | Option.none => (declare st1 vtok.value v, .val v))
    | .constDeclN _ vtok tyTok e0 mods =>
      bindV (interpret n st e0) (fun st1 v =>
        match tyTok with
        | some _ => (st1, .err tokenCallErr)
        | Option.none =>
          match check_modifiers st1 mods vtok.line vtok.column with
          | some err => (st1, .err err)
          | Option.none => (declare st1 vtok.value v, .val v))
    | .binOpN op l r =>
      bindV (interpret n st l) (fun st1 lv =>
        bindV (interpret n st1 r) (fun st2 rv =>
          (st2, interpret_binary_op_v st2 op lv rv)))
    | .unaryOpN op operand isP =>
      bindV (interpret n st operand) (fun st1 v =>
        if isP then
          match operand with
          | .variableN vtok =>
            match get_variable st1 vtok.value vtok.line vtok.column with
            | .error err => (st1, .err err)
            | .ok old =>
              match toFloatV old with
              | Option.none => (st1, tyFmt st1
                  ("Postfix operator requires numeric value, got " ++ pyTypeName old)
                  op.line op.column)
              | some _ =>
                if op.type == "INCREMENT" then
                  match set_variable st1 vtok.value (pyInc old 1) vtok.line vtok.column with
                  | .ok st2 => (st2, .val old)
                  | .error err => (st1, .err err)
                else if op.type == "DECREMENT" then
                  match set_variable st1 vtok.value (pyInc old (-1)) vtok.line vtok.column with
                  | .ok st2 => (st2, .val old)
                  | .error err => (st1, .err err)
                else (st1, interpret_unary_prefix st1 op v)
          | _ => (st1, rtFmt st1 "Postfix operator requires a variable" op.line op.column)
        else (st1, interpret_unary_prefix st1 op v))
    | .nullCoalesceN l r =>
      bindV (interpret n st l) (fun st1 v =>
        match v with
        | .null => interpret n st1 r
        | _ => (st1, .val v))
    | .elvisN l r =>
      bindV (interpret n st l) (fun st1 v =>
        match v with
        | .null => interpret n st1 r
        | _ => (st1, .val v))
    | .ifN cond thenB elseB =>
      bindV (interpret n st cond) (fun st1 c =>
        match c with
        | .bool b =>
          if b then interpret n st1 thenB
          else
            match elseB with
            | some e2 => interpret n st1 e2
            | Option.none => (st1, .val .null)
        | v => (st1, rtFmt st1 ("Condition must be boolean, got " ++ pyTypeName v) 1 1))
    | .whileN cond body => while_loop n st cond body
    | .doWhileN body cond => do_while_loop n st body cond
    | .forN Option.none cond stepE body =>
      let p := for_iter n (push_scope st) cond stepE body
      (pop_scope p.1, p.2)
    | .forN (some i0) cond stepE body =>
      match interpret n st i0 with
      | (st1, .err err) => (st1, .err err)
      | (st1, .fuelOut) => (st1, .fuelOut)
      | (st1, _) =>
        let p := for_iter n (push_scope st1) cond stepE body
        (pop_scope p.1, p.2)
    | .switchN subj cases dflt =>
      bindV (interpret n st subj) (fun st1 v => switch_cases n st1 v cases dflt)
    | .tryN body catches finallyB =>
      match try_phase n st body catches with
      | (st2, .fuelOut) => (st2, .fuelOut)
      | (st2, r2) =>
        match finallyB with
        | Option.none => (st2, r2)
        | some f =>
          match interpret n st2 f with
          | (st3, .err e3) => (st3, .err e3)
          | (st3, .fuelOut) => (st3, .fuelOut)
          | (st3, _) => (st3, r2)
    | .throwN ex =>
      bindV (interpret n st ex) (fun st1 v =>
        (st1, rtFmt st1 (pyStr v) 1 1))
    | .funcDefN nameT params rt0 body mods =>
      match check_modifiers st mods nameT.line nameT.column with
      | some err => (st, .err err)
      | Option.none =>
        ({ st with functions := aset st.functions nameT.value ⟨nameT, params, rt0, body, mods⟩ },
         .val .null)
    | .funcCallN funcTok args =>
      match aget st.functions funcTok.value with
      | Option.none =>
        (st, rtFmt st ("Undefined function: " ++ funcTok.value) funcTok.line funcTok.column)
      | some fd =>
        match check_modifiers st fd.modifiers funcTok.line funcTok.column with
        | some err => (st, .err err)
        | Option.none =>
          match eval_args n st args with
          | (st1, .error r) => (st1, r)
          | (st1, .ok argv) =>
            if argv.length ≠ fd.params.length then
              (st1, tyFmt st1 ("Expected " ++ toString fd.params.length ++
                  " arguments, got " ++ toString argv.length)
                funcTok.line funcTok.column)
            else
              match bind_params (push_scope st1) fd.params argv with
              | (st3, some err) => (pop_scope st3, .err err)
              | (st3, Option.none) =>
                match interpret n st3 fd.body with
                | (st4, .err err) => (pop_scope st4, .err err)
                | (st4, .fuelOut) => (pop_scope st4, .fuelOut)
                | (st4, _) =>
                  match fd.return_type with
                  | some _ => (pop_scope st4, .err tokenCallErr)
                  | Option.none => (pop_scope st4, .val .null)
    | .memberCallN objE methodTok args =>
      bindV (interpret n st objE) (fun st1 ov =>
        match ov with
        | .obj fields =>
          match aget fields "__class__" with
          | Option.none =>
            (st1, rtFmt st1 "Member call requires an object" methodTok.line methodTok.column)
          | some cv =>
            match aget st1.classes (className cv) with
            | Option.none =>
              (st1, rtFmt st1 ("Undefined class: " ++ className cv)
                methodTok.line methodTok.column)
            | some cd =>
              match find_method cd.members methodTok.value with
              | Option.none =>
                (st1, rtFmt st1 ("Undefined method " ++ methodTok.value ++ " in class "
                    ++ className cv)
                  methodTok.line methodTok.column)
              | some (ps, _, body, mods) =>
                match check_modifiers st1 mods methodTok.line methodTok.column with
                | some err => (st1, .err err)
                | Option.none =>
                  match eval_args n st1 args with
                  | (st2, .error r) => (st2, r)
                  | (st2, .ok argv) =>
                    if argv.length ≠ ps.length then
                      (st2, tyFmt st2 ("Expected " ++ toString ps.length ++
                          " arguments, got " ++ toString argv.length)
                        methodTok.line methodTok.column)
                    else
                      match bind_params (push_scope st2) ps argv with
                      | (st4, some err) => (pop_scope st4, .err err)
                      | (st4, Option.none) =>
                        match interpret n (declare st4 "this" (.obj fields)) body with
                        | (st6, .err err) => (pop_scope st6, .err err)
                        | (st6, .fuelOut) => (pop_scope st6, .fuelOut)
                        | (st6, _) => (pop_scope st6, .val .null)
        | _ => (st1, rtFmt st1 "Member call requires an object" methodTok.line methodTok.column))
    | .lambdaN ps body => (st, .val (.func ps body))
    | .classN nameT sup ifaces members mods =>
      let prev := st.current_class
      let st1 := { st with current_class := some nameT.value,
                           classes := aset st.classes nameT.value ⟨nameT, sup, ifaces, members, mods⟩ }
      match sup with
      | some sTok =>
        if (aget st1.classes sTok.value).isNone then
          (st1, rtFmt st1 ("Undefined superclass: " ++ sTok.value) sTok.line sTok.column)
        else
          class_body n { st1 with super_class_stack := sTok.value :: st1.super_class_stack }
            prev true ifaces members
      | Option.none => class_body n st1 prev false ifaces members
    | .interfaceN nameT members mods =>
      ({ st with interfaces := aset st.interfaces nameT.value ⟨nameT, members, mods⟩ },
       .val .null)
    | .enumN nameT values members =>
      let st1 := { st with enums := aset st.enums nameT.value ⟨nameT, values, members⟩ }
      let st2 := values.foldl (fun s t => declare s t.value (.str t.value)) st1
      enum_members n st2 members
    | .returnN ex =>
      match ex with
      | some e0 => interpret n st e0
      | Option.none => (st, .val .null)
    | .printN e0 =>
      bindV (interpret n st e0) (fun st1 v =>
        ({ st1 with output := st1.output ++ [pyStr v] }, .val .null))
    | .instanceOfN e0 tok =>
      bindV (interpret n st e0) (fun st1 v =>
        (st1, .val (.bool (
          if tok.type == "VARIABLE" then
            match v with
            | .obj fields =>
              match aget fields "__class__" with
              | some (.str s) => s == tok.value
              | _ => false
            | _ => false
          else if tok.type == "INT" then (toIntV v).isSome
          else if tok.type == "FLOAT" ∨ tok.type == "DOUBLE" then
            match v with | .float _ => true | _ => false
          else if tok.type == "BOOLEAN" then
            match v with | .bool _ => true | _ => false
          else if tok.type == "STRING_TYPE" then
            match v with | .str _ => true | _ => false
          else if tok.type == "ANY" then true
          else false))))
    | .newN tok args =>
      match aget st.classes tok.value with
      | Option.none =>
        (st, rtFmt st ("Undefined class: " ++ tok.value) tok.line tok.column)
      | some cd =>
        match eval_args n st args with
        | (st1, .error r) => (st1, r)
        | (st1, .ok _) =>
          let inst0 : Frame := [("__class__", .str tok.value)]
          let st3 := declare (push_scope st1) "this" (.obj inst0)
          match new_members n st3 cd.members inst0 with
          | (st4, .error r) => (pop_scope st4, r)
          | (st4, .ok inst) => (pop_scope st4, .val (.obj inst))
    | .blockN stmts =>
      let p := block_stmts n (push_scope st) stmts
      (pop_scope p.1, p.2)
    | .breakN => (st, .sig .brk)
    | .continueN => (st, .sig .cont)
    | .thisN tok =>
      match st.current_class with
      | Option.none =>
        (st, rtFmt st "'this' can only be used inside a class" tok.line tok.column)
      | some _ =>
        match get_variable st "this" tok.line tok.column with
        | .ok v => (st, .val v)
        | .error err => (st, .err err)
    | .superN tok =>
      match st.current_class, st.super_class_stack with
      | some _, sn :: _ =>
        match get_variable st "this" tok.line tok.column with
        | .error err => (st, .err err)
        | .ok thisV =>
          match thisV with
          | .obj fields => (st, .val (.obj (dict_star sn fields)))
          | v => (st, .err (.ty ("'" ++ pyTypeName v ++ "' object is not a mapping")))
      | _, _ =>
        (st, rtFmt st "'super' can only be used inside a class with a superclass"
          tok.line tok.column)
termination_by structural fuel _ _ => fuel

/-- The statement loop of the `ProgramNode` branch
(src/src/interpreter.py:31-38): results — including break/continue objects —
are discarded (the `isinstance(result, ReturnNode)` test never fires, since
the dispatch evaluates a `ReturnNode` to its expression's value); exceptions
propagate. -/
def program_stmts : Nat → St → List Expr → St × Res
  | 0, st, _ => (st, .fuelOut)
  | Nat.succ _, st, [] => (st, .val .null)
  | Nat.succ n, st, s :: rest =>
    match interpret n st s with
    | (st1, .err err) => (st1, .err err)
    | (st1, .fuelOut) => (st1, .fuelOut)
    | (st1, _) => program_stmts n st1 rest
termination_by structural fuel _ _ => fuel

/-- The statement loop of `interpret_block` (src/src/interpreter.py:906-910):
break/continue signals stop the block and propagate. -/
def block_stmts : Nat → St → List Expr → St × Res
  | 0, st, _ => (st, .fuelOut)
  | Nat.succ _, st, [] => (st, .val .null)
  | Nat.succ n, st, s :: rest =>
    match interpret n st s with
    | (st1, .val _) => block_stmts n st1 rest
    | (st1, r) => (st1, r)
termination_by structural fuel _ _ => fuel

/-- The argument list comprehension `[self.interpret(arg) for arg in args]`.
A signal value in argument position cannot arise from parsed programs and is
propagated like an exception. -/
def eval_args : Nat → St → List Expr → St × Except Res (List Value)
  | 0, st, _ => (st, .error .fuelOut)
  | Nat.succ _, st, [] => (st, .ok [])
  | Nat.succ n, st, a :: rest =>
    match interpret n st a with
    | (st1, .val v) =>
      match eval_args n st1 rest with
      | (st2, .ok vs) => (st2, .ok (v :: vs))
      | other => other
    | (st1, r) => (st1, .error r)
termination_by structural fuel _ _ => fuel

/-- Mirrors `interpret_while` (src/src/interpreter.py:533-554). -/
def while_loop : Nat → St → Expr → Expr → St × Res
  | 0, st, _, _ => (st, .fuelOut)
  | Nat.succ n, st, cond, body =>
    bindV (interpret n st cond) (fun st1 c =>
      match c with
      | .bool b =>
        if !b then (st1, .val .null)
        else
          match interpret n st1 body with
          | (st2, .sig .brk) => (st2, .val .null)
          | (st2, .sig .cont) => while_loop n st2 cond body
          | (st2, .val _) => while_loop n st2 cond body
          | (st2, r) => (st2, r)
      | v => (st1, rtFmt st1 ("Condition must be boolean, got " ++ pyTypeName v) 1 1))
termination_by structural fuel _ _ _ => fuel

/-- Mirrors `interpret_do_while` (src/src/interpreter.py:556-577).  A
`continue` signal restarts the body *without* re-testing the condition (the
host-level `continue` jumps back to the top of the `while True`). -/
def do_while_loop : Nat → St → Expr → Expr → St × Res
  | 0, st, _, _ => (st, .fuelOut)
  | Nat.succ n, st, body, cond =>
    match interpret n st body with
    | (st1, .sig .brk) => (st1, .val .null)
    | (st1, .sig .cont) => do_while_loop n st1 body cond
    | (st1, .val _) =>
      bindV (interpret n st1 cond) (fun st2 c =>
        match c with
        | .bool b =>
          if b then do_while_loop n st2 body cond else (st2, .val .null)
        | v => (st2, rtFmt st2 ("Condition must be boolean, got " ++ pyTypeName v) 1 1))
    | (st1, r) => (st1, r)
termination_by structural fuel _ _ _ => fuel

/-- The `while node.cond is None or self.interpret(node.cond):` loop head of
`interpret_for` (src/src/interpreter.py:584); the condition result is used
for truthiness, without the boolean check the other loops perform. -/
def for_iter : Nat → St → Option Expr → Option Expr → Expr → St × Res
  | 0, st, _, _, _ => (st, .fuelOut)
  | Nat.succ n, st, cond, stepE, body =>
    match cond with
    | some c =>
      bindV (interpret n st c) (fun st1 cv =>
        if pyTruthy cv then for_body n st1 cond stepE body
        else (st1, .val .null))
    | Option.none => for_body n st cond stepE body
termination_by structural fuel _ _ _ _ => fuel

/-- One `for` iteration (src/src/interpreter.py:585-595): `break` ends the
loop, `continue` and normal completion both run the step expression before
the condition is re-tested. -/
def for_body : Nat → St → Option Expr → Option Expr → Expr → St × Res
  | 0, st, _, _, _ => (st, .fuelOut)
  | Nat.succ n, st, cond, stepE, body =>
    match interpret n st body with
    | (st1, .sig .brk) => (st1, .val .null)
    | (st1, .sig .cont) => for_step n st1 cond stepE body
    | (st1, .val _) => for_step n st1 cond stepE body
    | (st1, r) => (st1, r)
termination_by structural fuel _ _ _ _ => fuel

/-- The step expression of a `for` iteration, then back to the loop head. -/
def for_step : Nat → St → Option Expr → Option Expr → Expr → St × Res
  | 0, st, _, _, _ => (st, .fuelOut)
  | Nat.succ n, st, cond, stepE, body =>
    match stepE with
    | some sE =>
      bindV (interpret n st sE) (fun st1 _ => for_iter n st1 cond stepE body)
    | Option.none => for_iter n st cond stepE body
termination_by structural fuel _ _ _ _ => fuel

/-- Mirrors `interpret_switch` (src/src/interpreter.py:600-608): first case
whose value equals the subject, else the default, else `None`. -/
def switch_cases : Nat → St → Value → List (Expr × Expr) → Option Expr → St × Res
  | 0, st, _, _, _ => (st, .fuelOut)
  | Nat.succ n, st, _, [], dflt =>
    match dflt with
    | some d => interpret n st d
    | Option.none => (st, .val .null)
  | Nat.succ n, st, v, (cv, cb) :: rest, dflt =>
    bindV (interpret n st cv) (fun st1 cvv =>
      if pyEq v cvv then interpret n st1 cb
      else switch_cases n st1 v rest dflt)
termination_by structural fuel _ _ _ _ => fuel

/-- The try/catch phase of `interpret_try` (src/src/interpreter.py:610-623),
before the `finally` clause: evaluate the try block; only a `RuntimeError`
reaches the catch clauses — a `TypeError` or any other result (value,
break/continue signal) passes through untouched. -/
def try_phase : Nat → St → Expr → List (Token × Option Token × Expr) → St × Res
  | 0, st, _, _ => (st, .fuelOut)
  | Nat.succ n, st, body, catches =>
    match interpret n st body with
    | (st1, .err (.rt m)) => run_catches n st1 (.rt m) catches
    | r => r
termination_by structural fuel _ _ _ => fuel

/-- The `except RuntimeError` handler of `interpret_try`
(src/src/interpreter.py:613-623).  The `for` loop over the catch clauses
`return`s from inside its first iteration (or lets an exception raised there
propagate), so only the first clause ever runs; an empty clause list
re-raises.  Each clause pushes a scope and binds `str(e)`; a declared type
filter makes `catch.type_token(False)` raise `tokenCallErr` (the stored
token is not callable), otherwise the body runs; the scope is popped in the
`finally` either way. -/
def run_catches : Nat → St → Err → List (Token × Option Token × Expr) → St × Res
  | 0, st, _, _ => (st, .fuelOut)
  | Nat.succ _, st, e, [] => (st, .err e)
  | Nat.succ n, st, e, (vtok, tyTok, body) :: _ =>
    let st2 := declare (push_scope st) vtok.value (.str (errStr e))
    match tyTok with
    | some _ => (pop_scope st2, .err tokenCallErr)
    | Option.none =>
      let p := interpret n st2 body
      (pop_scope p.1, p.2)
termination_by structural fuel _ _ _ => fuel

/-- The tail of `interpret_class_def` after registration and the superclass
check (src/src/interpreter.py:822-839): interface existence check, member
evaluation, then restoring `current_class` and the superclass stack.  On an
exception the restores are skipped (the source has no `finally` here). -/
def class_body : Nat → St → Option String → Bool → List Token → List Expr → St × Res
  | 0, st, _, _, _, _ => (st, .fuelOut)
  | Nat.succ n, st, prev, hasSuper, ifaces, members =>
    match find_missing_interface st ifaces with
    | some iTok =>
      (st, rtFmt st ("Undefined interface: " ++ iTok.value) iTok.line iTok.column)
    | Option.none =>
      match class_members n st members with
      | (st1, .val _) =>
        let st2 := { st1 with current_class := prev }
        let st3 :=
          if hasSuper then { st2 with super_class_stack := st2.super_class_stack.tail }
          else st2
        (st3, .val .null)
      | other => other
termination_by structural fuel _ _ _ _ _ => fuel

/-- The member loop of `interpret_class_def` (src/src/interpreter.py:833-835):
only declarations and function definitions are interpreted. -/
def class_members : Nat → St → List Expr → St × Res
  | 0, st, _ => (st, .fuelOut)
  | Nat.succ _, st, [] => (st, .val .null)
  | Nat.succ n, st, m :: rest =>
    if class_member_runs m then
      match interpret n st m with
      | (st1, .val _) => class_members n st1 rest
      | other => other
    else class_members n st rest
termination_by structural fuel _ _ => fuel

/-- The member loop of `interpret_enum_def` (src/src/interpreter.py:849-850):
every member is interpreted and its result discarded; exceptions propagate. -/
def enum_members : Nat → St → List Expr → St × Res
  | 0, st, _ => (st, .fuelOut)
  | Nat.succ _, st, [] => (st, .val .null)
  | Nat.succ n, st, m :: rest =>
    match interpret n st m with
    | (st1, .err err) => (st1, .err err)
    | (st1, .fuelOut) => (st1, .fuelOut)
    | (st1, _) => enum_members n st1 rest
termination_by structural fuel _ _ => fuel

/-- The field-initialisation loop of `interpret_new`
(src/src/interpreter.py:895-898): each declaration member is interpreted in
the instance scope and the freshly bound value is stored into the instance
dict; `this` aliases that dict in the source, so the binding of `this` is
updated in step with it. -/
def new_members : Nat → St → List Expr → Frame → St × Except Res Frame
  | 0, st, _, _ => (st, .error .fuelOut)
  | Nat.succ _, st, [], inst => (st, .ok inst)
  | Nat.succ n, st, m :: rest, inst =>
    match decl_name? m with
    | some vtok =>
      match interpret n st m with
      | (st1, .val _) =>
        match (match st1.scopes with
               | f :: _ => aget f vtok.value
               | [] => Option.none) with
        | some fv =>
          new_members n (declare st1 "this" (.obj (aset inst vtok.value fv))) rest
            (aset inst vtok.value fv)
        | Option.none => (st1, .error (.err (.py "KeyError")))
      | (st1, r) => (st1, .error r)
    | Option.none => new_members n st rest inst
termination_by structural fuel _ _ _ => fuel
end

/-! The lexer (src/src/lexer.py and the patterns of src/src/token.py),
modelled over `List Char`.  Python's `re.match` anchored at position 0 is
implemented per pattern; `\b` at the start of a keyword pattern always holds
there (the first character of every keyword is a word character), and at the
end it requires the next character, if any, not to be a word character. -/

/-- Python regex `\w`: `[a-zA-Z0-9_]` for the ASCII sources. -/
def isWordChar (c : Char) : Bool :=
  c.isAlphanum || c == '_'

/-- Match a `\b…\b`-delimited keyword literal at position 0. -/
def kwMatch (lit : String) (s : List Char) : Option (List Char) :=
  let l := lit.toList
  if l.isPrefixOf s then
    match s.drop l.length with
    | [] => some l
    | c :: _ => if isWordChar c then Option.none else some l
  else Option.none

/-- Match a plain literal at position 0. -/
def litMatch (lit : String) (s : List Char) : Option (List Char) :=
  if lit.toList.isPrefixOf s then some lit.toList else Option.none

/-- Match the NUMBER pattern at position 0:
optional sign, digits, optional fraction, optional exponent (each optional
group taken greedily, dropped when incomplete, as the regex backtracks). -/
def numMatch (s : List Char) : Option (List Char) :=
  let (sgn, s1) := match s with
    | '-' :: rest => (['-'], rest)
    | _ => (([] : List Char), s)
  let ip := s1.takeWhile Char.isDigit
  if ip = [] then Option.none
  else
    let s2 := s1.drop ip.length
    let (frac, s3) := match s2 with
      | '.' :: rest =>
        let d := rest.takeWhile Char.isDigit
        if d = [] then (([] : List Char), s2) else ('.' :: d, rest.drop d.length)
      | _ => (([] : List Char), s2)
    let ex : List Char := match s3 with
      | c :: rest =>
        if c == 'e' ∨ c == 'E' then
          match rest with
          | sc :: rest2 =>
            if sc == '+' ∨ sc == '-' then
              let d := rest2.takeWhile Char.isDigit
              if d = [] then [] else c :: sc :: d
            else
              let d := rest.takeWhile Char.isDigit
              if d = [] then [] else c :: d
          | [] => []
        else []
      | [] => []
    some (sgn ++ ip ++ frac ++ ex)

/-- Match one quoted-string alternative (no embedded quote or newline). -/
def quoteMatch (q : Char) (s : List Char) : Option (List Char) :=
  match s with
  | c :: rest =>
    if c == q then
      let body := rest.takeWhile (fun d => d ≠ q ∧ d ≠ '\n')
      match rest.drop body.length with
      | d :: _ => if d == q then some (q :: body ++ [q]) else Option.none
      | [] => Option.none
    else Option.none
  | [] => Option.none

/-- Match the STRING pattern: double- or single-quoted. -/
def strMatch (s : List Char) : Option (List Char) :=
  match quoteMatch '"' s with
  | some m => some m
  | Option.none => quoteMatch '\'' s

/-- Match the CHAR pattern: a single optional non-quote character between
single quotes (the optional group taken greedily first). -/
def charMatch (s : List Char) : Option (List Char) :=
  match s with
  | q1 :: c :: q2 :: _ =>
    if q1 == '\'' ∧ c ≠ '\'' ∧ q2 == '\'' then some [q1, c, q2]
    else if q1 == '\'' ∧ c == '\'' then some [q1, c]
    else Option.none
  | [q1, c] =>
    if q1 == '\'' ∧ c == '\'' then some [q1, c] else Option.none
  | _ => Option.none

/-- Match the VARIABLE pattern: a maximal word-character run starting with a
letter or underscore. -/
def varMatch (s : List Char) : Option (List Char) :=
  match s with
  | c :: _ =>
    if c.isAlpha ∨ c == '_' then some (s.takeWhile isWordChar) else Option.none
  | [] => Option.none

/-- Match the SPACE pattern. -/
def spaceMatch (s : List Char) : Option (List Char) :=
  let w := s.takeWhile (fun c => c == ' ' ∨ c == '\n' ∨ c == '\t' ∨ c == '\r')
  if w = [] then Option.none else some w

/-- Match the COMMENT pattern `#` to end of line. -/
def commentMatch (s : List Char) : Option (List Char) :=
  match s with
  | '#' :: rest => some ('#' :: rest.takeWhile (fun c => c ≠ '\n'))
  | _ => Option.none

/-- The pattern table of src/src/token.py (`token_types_list`), keyed by the
token-type name. -/
def patMatch (name : String) (s : List Char) : Option (List Char) :=
  if name == "NUMBER" then numMatch s
  else if name == "STRING" then strMatch s
  else if name == "CHAR" then charMatch s
  else if name == "VARIABLE" then varMatch s
  else if name == "TRUE" then kwMatch "true" s
  else if name == "FALSE" then kwMatch "false" s
  else if name == "NULL" then kwMatch "null" s
  else if name == "ASSIGN" then litMatch "=" s
  else if name == "EQUAL" then litMatch "==" s
  else if name == "NOT_EQUAL" then litMatch "!=" s
  else if name == "LESS" then litMatch "<" s
  else if name == "GREATER" then litMatch ">" s
  else if name == "LESS_EQUAL" then litMatch "<=" s
  else if name == "GREATER_EQUAL" then litMatch ">=" s
  else if name == "PLUS" then litMatch "+" s
  else if name == "MINUS" then litMatch "-" s
  else if name == "MULTIPLY" then litMatch "*" s
  else if name == "DIVIDE" then litMatch "/" s
  else if name == "MODULO" then litMatch "%" s
  else if name == "AND" then litMatch "&&" s
  else if name == "OR" then litMatch "||" s
  else if name == "NOT" then litMatch "!" s
  else if name == "BIT_AND" then litMatch "&" s
  else if name == "BIT_OR" then litMatch "|" s
  else if name == "BIT_XOR" then litMatch "^" s
  else if name == "BIT_NOT" then litMatch "~" s
  else if name == "SHL" then litMatch "<<" s
  else if name == "SHR" then litMatch ">>" s
  else if name == "NULL_COALESCE" then litMatch "??" s
  else if name == "ELVIS" then litMatch "?:" s
  else if name == "INCREMENT" then litMatch "++" s
  else if name == "DECREMENT" then litMatch "--" s
  else if name == "SEMICOLON" then litMatch ";" s
  else if name == "COLON" then litMatch ":" s
  else if name == "COMMA" then litMatch "," s
  else if name == "DOT" then litMatch "." s
  else if name == "ARROW" then litMatch "->" s
  else if name == "LPAREN" then litMatch "(" s
  else if name == "RPAREN" then litMatch ")" s
  else if name == "LBRACE" then litMatch "\x7b" s
  else if name == "RBRACE" then litMatch "\x7d" s
  else if name == "LBRACKET" then litMatch "[" s
  else if name == "RBRACKET" then litMatch "]" s
  else if name == "IF" then kwMatch "if" s
  else if name == "ELSE" then kwMatch "else" s
  else if name == "WHILE" then kwMatch "while" s
  else if name == "FOR" then kwMatch "for" s
  else if name == "DO" then kwMatch "do" s
  else if name == "SWITCH" then kwMatch "switch" s
  else if name == "CASE" then kwMatch "case" s
  else if name == "DEFAULT" then kwMatch "default" s
  else if name == "BREAK" then kwMatch "break" s
  else if name == "CONTINUE" then kwMatch "continue" s
  else if name == "RETURN" then kwMatch "return" s
  else if name == "TRY" then kwMatch "try" s
  else if name == "CATCH" then kwMatch "catch" s
  else if name == "FINALLY" then kwMatch "finally" s
  else if name == "THROW" then kwMatch "throw" s
  else if name == "PRINT" then kwMatch "print" s
  else if name == "FUNCTION" then kwMatch "fun" s
  else if name == "CLASS" then kwMatch "class" s
  else if name == "INTERFACE" then kwMatch "interface" s
  else if name == "ENUM" then kwMatch "enum" s
  else if name == "VAR" then kwMatch "var" s
  else if name == "VAL" then kwMatch "val" s
  else if name == "CONST" then kwMatch "const" s
  else if name == "STATIC" then kwMatch "static" s
  else if name == "NEW" then kwMatch "new" s
  else if name == "PUBLIC" then kwMatch "public" s
  else if name == "PRIVATE" then kwMatch "private" s
  else if name == "PROTECTED" then kwMatch "protected" s
  else if name == "INTERNAL" then kwMatch "internal" s
  else if name == "INT" then kwMatch "int" s
  else if name == "FLOAT" then kwMatch "float" s
  else if name == "DOUBLE" then kwMatch "double" s
  else if name == "BOOLEAN" then kwMatch "boolean" s
  else if name == "STRING_TYPE" then kwMatch "string" s
  else if name == "VOID" then kwMatch "void" s
  else if name == "ANY" then kwMatch "any" s
  else if name == "NULLABLE" then litMatch "?" s
  else if name == "IMPORT" then kwMatch "import" s
  else if name == "FROM" then kwMatch "from" s
  else if name == "AS" then kwMatch "as" s
  else if name == "THIS" then kwMatch "this" s
  else if name == "SUPER" then kwMatch "super" s
  else if name == "INSTANCEOF" then kwMatch "instanceof" s
  else if name == "LAMBDA" then kwMatch "lambda" s
  else if name == "SPACE" then spaceMatch s
  else if name == "COMMENT" then commentMatch s
  else Option.none

/-- The priority-ordered pattern list of `Lexer.__init__`
(src/src/lexer.py:14-40); every listed name is present in
`token_types_list`, so the compiled list keeps exactly this order. -/
def token_order : List String :=
  ["EQUAL", "NOT_EQUAL", "LESS_EQUAL", "GREATER_EQUAL", "NULL_COALESCE",
   "ELVIS", "INCREMENT", "DECREMENT", "AND", "OR", "SHL", "SHR",
   "BIT_AND", "BIT_OR", "BIT_XOR",
   "IF", "ELSE", "WHILE", "FOR", "DO", "SWITCH", "CASE", "DEFAULT",
   "BREAK", "CONTINUE", "RETURN", "TRY", "CATCH", "FINALLY", "THROW",
   "FUNCTION", "CLASS", "INTERFACE", "ENUM", "VAR", "VAL", "CONST",
   "STATIC", "PUBLIC", "PRIVATE", "PROTECTED", "INTERNAL", "NEW",
   "THIS", "SUPER", "INSTANCEOF", "LAMBDA", "IMPORT", "FROM", "AS",
   "TRUE", "FALSE", "NULL", "PRINT",
   "INT", "FLOAT", "DOUBLE", "BOOLEAN", "STRING_TYPE", "VOID", "ANY",
   "NUMBER", "STRING", "CHAR",
   "ASSIGN", "LESS", "GREATER", "PLUS", "MINUS", "MULTIPLY", "DIVIDE",
   "MODULO", "NOT", "BIT_NOT", "SEMICOLON", "COLON", "COMMA", "DOT",
   "ARROW", "NULLABLE",
   "LPAREN", "RPAREN", "LBRACE", "RBRACE", "LBRACKET", "RBRACKET",
   "SPACE", "COMMENT",
   "VARIABLE"]

/-- The first pattern in the given priority list that matches — not the
longest (`Lexer.next_token`, src/src/lexer.py:69-84). -/
def first_match : List String → List Char → Option (String × List Char)
  | [], _ => Option.none
  | name :: rest, s =>
    match patMatch name s with
    | some m => some (name, m)
    | Option.none => first_match rest s

/-- The located error of `Lexer.next_token` (src/src/lexer.py:86-88), or
fuel exhaustion (an embedding artifact). -/
inductive LexErr where
  | unexpected (char : Char) (line column : Nat)
  | fuelOut
deriving Repr, DecidableEq

/-- Mirrors `Lexer.update_position` (src/src/lexer.py:48-56) for line and
column (a newline resets the column to 1 and bumps the line). -/
def advance_pos (lc : Nat × Nat) (consumed : List Char) : Nat × Nat :=
  consumed.foldl (fun p c => if c == '\n' then (p.1 + 1, 1) else (p.1, p.2 + 1)) lc

/-- The token scan loop of `lex_analysis` (src/src/lexer.py:58-67,69-88):
emit the first-matching pattern's token at each position, or fail with the
current character and location. -/
def lex_loop : Nat → List Char → Nat → Nat → Nat → List Token →
    Except LexErr (List Token)
  | 0, _, _, _, _, _ => .error .fuelOut
  | Nat.succ _, [], _, _, _, acc => .ok acc
  | Nat.succ n, s, pos, line, col, acc =>
    match first_match token_order s with
    | some (name, m) =>
      let tok : Token := { type := name, value := String.mk m, position := pos,
                           line := line, column := col }
      let lc := advance_pos (line, col) m
      lex_loop n (s.drop m.length) (pos + m.length) lc.1 lc.2 (acc ++ [tok])
    | Option.none =>
      match s with
      | c :: _ => .error (.unexpected c line col)
      | [] => .error .fuelOut

/-- Mirrors `lex_analysis`: scan, then discard SPACE and COMMENT tokens. -/
def lex_analysis (source : String) : Except LexErr (List Token) :=
  (lex_loop (source.length + 1) source.toList 0 1 1 []).map
    (fun toks => toks.filter (fun t => t.type ≠ "SPACE" ∧ t.type ≠ "COMMENT"))

/-! The expression grammar of the parser (src/src/parser.py:443-639),
modelled as fueled functions from the remaining token list.  `advance` is
taking the tail; `SyntaxError` is the `Except.error` string. -/

/-- Mirrors `Parser.expect` (src/src/parser.py:18-24). -/
def expectTok (ty : String) (toks : List Token) : Except String (Token × List Token) :=
  match toks with
  | tok :: rest =>
    if tok.type == ty then .ok (tok, rest)
    else .error ("Expected " ++ ty ++ ", got " ++ tok.type ++ " at position "
      ++ toString tok.position)
  | [] => .error ("Expected " ++ ty ++ ", got EOF at position EOF")

/-- Mirrors `Parser.expect_one_of` (src/src/parser.py:157-163). -/
def expectOneOf (tys : List String) (toks : List Token) :
    Except String (Token × List Token) :=
  match toks with
  | tok :: rest =>
    if tys.contains tok.type then .ok (tok, rest)
    else .error ("Expected one of " ++ toString tys ++ ", got " ++ tok.type)
  | [] => .error ("Expected one of " ++ toString tys ++ ", got EOF")

/-- Python `str.lower()` for the ASCII identifiers the parser sees. -/
def asciiLower (s : String) : String :=
  String.mk (s.toList.map (fun c =>
    if 'A' ≤ c ∧ c ≤ 'Z' then Char.ofNat (c.toNat + 32) else c))

/-- The keyword names that `parse_primary` refuses as variable uses
(src/src/parser.py:607-613). -/
def keyword_values : List String :=
  ["if", "else", "while", "for", "do", "switch", "case", "default", "return", "fun",
   "class", "interface", "enum", "var", "val", "const", "break", "continue",
   "try", "catch", "finally", "throw", "true", "false", "null", "public",
   "private", "protected", "internal", "static", "new", "this", "super",
   "instanceof", "lambda", "import", "from", "as", "print"]

/-- The source's acceptance test for an assignment target
(src/src/parser.py:479): `isinstance(expr, VariableNode)`. -/
def assign_target_ok : Expr → Bool
  | .variableN _ => true
  | _ => false

/-- The acceptance set the specification describes for an assignment target:
a variable reference or a member-call node.  Stated from the spec's words,
for comparison against `assign_target_ok`. -/
def claimed_assign_target : Expr → Bool
  | .variableN _ => true
  | .memberCallN _ _ _ => true
  | _ => false

/-- Mirrors `parse_param` (src/src/parser.py:321-336).  The source stores the
plain type token and records nullability on the `ParamNode`. -/
def parse_param (toks : List Token) : Except String (ParamNode × List Token) :=
  match expectTok "VARIABLE" toks with
  | .error e => .error e
  | .ok (nameTok, t1) =>
    match t1 with
    | tok :: rest =>
      if tok.type == "COLON" then
        match expectOneOf ["INT", "FLOAT", "DOUBLE", "BOOLEAN", "STRING_TYPE",
            "ANY", "VARIABLE"] rest with
        | .error e => .error e
        | .ok (ty, t2) =>
          match t2 with
          | ntok :: rest2 =>
            if ntok.type == "NULLABLE" then
              .ok ({ name := nameTok, type_token := some ty, is_nullable := true }, rest2)
            else .ok ({ name := nameTok, type_token := some ty, is_nullable := false }, t2)
          | [] => .ok ({ name := nameTok, type_token := some ty, is_nullable := false }, t2)
      else .ok ({ name := nameTok, type_token := Option.none, is_nullable := false }, t1)
    | [] => .ok ({ name := nameTok, type_token := Option.none, is_nullable := false }, t1)

mutual
/-- Mirrors `parse_expression` (src/src/parser.py:443-445). -/
def parse_expression : Nat → List Token → Except String (Expr × List Token)
  | 0, _ => .error "fuel exhausted"
  | Nat.succ n, toks => parse_null_coalesce n toks
termination_by structural fuel _ => fuel

/-- Mirrors `parse_null_coalesce` (src/src/parser.py:447-458). -/
def parse_null_coalesce : Nat → List Token → Except String (Expr × List Token)
  | 0, _ => .error "fuel exhausted"
  | Nat.succ n, toks =>
    match parse_elvis n toks with
    | .error e => .error e
    | .ok (e, t1) => nc_loop n e t1
termination_by structural fuel _ => fuel

/-- The `while NULL_COALESCE` fold of `parse_null_coalesce`. -/
def nc_loop : Nat → Expr → List Token → Except String (Expr × List Token)
  | 0, _, _ => .error "fuel exhausted"
  | Nat.succ n, e, toks =>
    match toks with
    | tok :: rest =>
      if tok.type == "NULL_COALESCE" then
        match parse_elvis n rest with
        | .error er => .error er
        | .ok (r, t2) => nc_loop n (.nullCoalesceN e r) t2
      else .ok (e, toks)
    | [] => .ok (e, toks)
termination_by structural fuel _ _ => fuel

/-- Mirrors `parse_elvis` (src/src/parser.py:460-471). -/
def parse_elvis : Nat → List Token → Except String (Expr × List Token)
  | 0, _ => .error "fuel exhausted"
  | Nat.succ n, toks =>
    match parse_assignment n toks with
    | .error e => .error e
    | .ok (e, t1) => elvis_loop n e t1
termination_by structural fuel _ => fuel

/-- The `while ELVIS` fold of `parse_elvis`. -/
def elvis_loop : Nat → Expr → List Token → Except String (Expr × List Token)
  | 0, _, _ => .error "fuel exhausted"
  | Nat.succ n, e, toks =>
    match toks with
    | tok :: rest =>
      if tok.type == "ELVIS" then
        match parse_assignment n rest with
        | .error er => .error er
        | .ok (r, t2) => elvis_loop n (.elvisN e r) t2
      else .ok (e, toks)
    | [] => .ok (e, toks)
termination_by structural fuel _ _ => fuel

/-- Mirrors `parse_assignment` (src/src/parser.py:473-483). -/
def parse_assignment : Nat → List Token → Except String (Expr × List Token)
  | 0, _ => .error "fuel exhausted"
  | Nat.succ n, toks =>
    match parse_equality n toks with
    | .error e => .error e
    | .ok (e, t1) => assign_cont n e t1
termination_by structural fuel _ => fuel

/-- The continuation of `parse_assignment` after the left-hand side has been
parsed (src/src/parser.py:476-483): on an `=` lookahead, the target must
satisfy `assign_target_ok` — `isinstance(expr, VariableNode)` — and the
right-hand side is a whole `parse_expression`, making `=` right-associative. -/
def assign_cont : Nat → Expr → List Token → Except String (Expr × List Token)
  | 0, _, _ => .error "fuel exhausted"
  | Nat.succ n, e, toks =>
    match toks with
    | tok :: rest =>
      if tok.type == "ASSIGN" then
        if assign_target_ok e then
          match e with
          | .variableN vtok =>
            match parse_expression n rest with
            | .error er => .error er
            | .ok (v, t2) => .ok (.assignN tok vtok v, t2)
          | _ => .error ("Invalid assignment target at position " ++ toString tok.position)
        else .error ("Invalid assignment target at position " ++ toString tok.position)
      else .ok (e, toks)
    | [] => .ok (e, toks)
termination_by structural fuel _ _ => fuel

/-- Mirrors `parse_equality` (src/src/parser.py:485-493). -/
def parse_equality : Nat → List Token → Except String (Expr × List Token)
  | 0, _ => .error "fuel exhausted"
  | Nat.succ n, toks =>
    match parse_comparison n toks with
    | .error e => .error e
    | .ok (e, t1) => binop_loop n ["EQUAL", "NOT_EQUAL"] 0 e t1
termination_by structural fuel _ => fuel

/-- Mirrors `parse_comparison` (src/src/parser.py:495-503). -/
def parse_comparison : Nat → List Token → Except String (Expr × List Token)
  | 0, _ => .error "fuel exhausted"
  | Nat.succ n, toks =>
    match parse_term n toks with
    | .error e => .error e
    | .ok (e, t1) =>
      binop_loop n ["LESS", "GREATER", "LESS_EQUAL", "GREATER_EQUAL"] 1 e t1
termination_by structural fuel _ => fuel

/-- Mirrors `parse_term` (src/src/parser.py:505-513). -/
def parse_term : Nat → List Token → Except String (Expr × List Token)
  | 0, _ => .error "fuel exhausted"
  | Nat.succ n, toks =>
    match parse_factor n toks with
    | .error e => .error e
    | .ok (e, t1) => binop_loop n ["PLUS", "MINUS"] 2 e t1
termination_by structural fuel _ => fuel

/-- Mirrors `parse_factor` (src/src/parser.py:515-523). -/
def parse_factor : Nat → List Token → Except String (Expr × List Token)
  | 0, _ => .error "fuel exhausted"
  | Nat.succ n, toks =>
    match parse_unary n toks with
    | .error e => .error e
    | .ok (e, t1) => binop_loop n ["MULTIPLY", "DIVIDE", "MODULO"] 3 e t1
termination_by structural fuel _ => fuel

/-- The shared left-associative `while operator: fold` loop of the binary
levels; `level` selects the operand parser of the level below the operators
(0 equality, 1 comparison, 2 term, 3 factor). -/
def binop_loop : Nat → List String → Nat → Expr → List Token →
    Except String (Expr × List Token)
  | 0, _, _, _, _ => .error "fuel exhausted"
  | Nat.succ n, ops, level, e, toks =>
    match toks with
    | tok :: rest =>
      if ops.contains tok.type then
        match (if level == 0 then parse_comparison n rest
               else if level == 1 then parse_term n rest
               else if level == 2 then parse_factor n rest
               else parse_unary n rest) with
        | .error er => .error er
        | .ok (r, t2) => binop_loop n ops level (.binOpN tok e r) t2
      else .ok (e, toks)
    | [] => .ok (e, toks)
termination_by structural fuel _ _ _ _ => fuel

/-- Mirrors `parse_unary` (src/src/parser.py:525-532). -/
def parse_unary : Nat → List Token → Except String (Expr × List Token)
  | 0, _ => .error "fuel exhausted"
  | Nat.succ n, toks =>
    match toks with
    | tok :: rest =>
      if tok.type == "MINUS" || tok.type == "NOT" || tok.type == "BIT_NOT" then
        match parse_unary n rest with
        | .error e => .error e
        | .ok (operand, t2) => .ok (.unaryOpN tok operand false, t2)
      else parse_instanceof n toks
    | [] => parse_instanceof n toks
termination_by structural fuel _ => fuel

/-- Mirrors `parse_instanceof` (src/src/parser.py:534-545). -/
def parse_instanceof : Nat → List Token → Except String (Expr × List Token)
  | 0, _ => .error "fuel exhausted"
  | Nat.succ n, toks =>
    match parse_new n toks with
    | .error e => .error e
    | .ok (e, t1) =>
      match t1 with
      | tok :: rest =>
        if tok.type == "INSTANCEOF" then
          match expectOneOf ["INT", "FLOAT", "DOUBLE", "BOOLEAN", "STRING_TYPE",
              "ANY", "VARIABLE"] rest with
          | .error er => .error er
          | .ok (ty, t2) => .ok (.instanceOfN e ty, t2)
        else .ok (e, t1)
      | [] => .ok (e, t1)
termination_by structural fuel _ => fuel

/-- Mirrors `parse_new` (src/src/parser.py:547-565). -/
def parse_new : Nat → List Token → Except String (Expr × List Token)
  | 0, _ => .error "fuel exhausted"
  | Nat.succ n, toks =>
    match toks with
    | tok :: rest =>
      if tok.type == "NEW" then
        match expectTok "VARIABLE" rest with
        | .error e => .error e
        | .ok (tyTok, t1) =>
          match expectTok "LPAREN" t1 with
          | .error e => .error e
          | .ok (_, t2) =>
            match call_args n t2 with
            | .error e => .error e
            | .ok (args, t3) =>
              match expectTok "RPAREN" t3 with
              | .error e => .error e
              | .ok (_, t4) => .ok (.newN tyTok args, t4)
      else parse_lambda n toks
    | [] => parse_lambda n toks
termination_by structural fuel _ => fuel

/-- Mirrors `parse_lambda` (src/src/parser.py:567-586). -/
def parse_lambda : Nat → List Token → Except String (Expr × List Token)
  | 0, _ => .error "fuel exhausted"
  | Nat.succ n, toks =>
    match toks with
    | tok :: rest =>
      if tok.type == "LAMBDA" then
        match expectTok "LPAREN" rest with
        | .error e => .error e
        | .ok (_, t1) =>
          match lambda_params n t1 with
          | .error e => .error e
          | .ok (params, t2) =>
            match expectTok "RPAREN" t2 with
            | .error e => .error e
            | .ok (_, t3) =>
              match expectTok "ARROW" t3 with
              | .error e => .error e
              | .ok (_, t4) =>
                match parse_expression n t4 with
                | .error e => .error e
                | .ok (body, t5) => .ok (.lambdaN params body, t5)
      else parse_primary n toks
    | [] => parse_primary n toks
termination_by structural fuel _ => fuel

/-- The parameter list loop of `parse_lambda` / `parse_function_def`. -/
def lambda_params : Nat → List Token → Except String (List ParamNode × List Token)
  | 0, _ => .error "fuel exhausted"
  | Nat.succ n, toks =>
    match toks with
    | tok :: _ =>
      if tok.type == "RPAREN" then .ok ([], toks)
      else
        match parse_param toks with
        | .error e => .error e
        | .ok (p, t1) => params_rest n [p] t1
    | [] => .ok ([], toks)

/-- The `while COMMA` continuation of the parameter list loop. -/
def params_rest : Nat → List ParamNode → List Token →
    Except String (List ParamNode × List Token)
  | 0, _, _ => .error "fuel exhausted"
  | Nat.succ n, acc, toks =>
    match toks with
    | tok :: rest =>
      if tok.type == "COMMA" then
        match parse_param rest with
        | .error e => .error e
        | .ok (p, t1) => params_rest n (acc ++ [p]) t1
      else .ok (acc, toks)
    | [] => .ok (acc, toks)
termination_by structural fuel _ _ => fuel

/-- Mirrors `parse_primary` (src/src/parser.py:588-623). -/
def parse_primary : Nat → List Token → Except String (Expr × List Token)
  | 0, _ => .error "fuel exhausted"
  | Nat.succ n, toks =>
    match toks with
    | [] => .error "Expected expression, got EOF"
    | tok :: rest =>
      if tok.type == "NUMBER" then .ok (.numberN tok, rest)
      else if tok.type == "STRING" then .ok (.stringN tok, rest)
      else if tok.type == "CHAR" then .ok (.charN tok, rest)
      else if tok.type == "TRUE" || tok.type == "FALSE" then .ok (.booleanN tok, rest)
      else if tok.type == "NULL" then .ok (.nullN tok, rest)
      else if tok.type == "VARIABLE" then
        if keyword_values.contains (asciiLower tok.value) then
          .error ("Unexpected keyword '" ++ tok.value ++ "' used as variable at position "
            ++ toString tok.position)
        else
          match rest with
          | nxt :: _ =>
            if nxt.type == "LPAREN" then parse_function_call n tok rest
            else .ok (.variableN tok, rest)
          | [] => .ok (.variableN tok, rest)
      else if tok.type == "LPAREN" then
        match parse_expression n rest with
        | .error e => .error e
        | .ok (e, t1) =>
          match expectTok "RPAREN" t1 with
          | .error er => .error er
          | .ok (_, t2) => .ok (e, t2)
      else .error ("Unexpected token " ++ tok.type ++ " at position " ++ toString tok.position)
termination_by structural fuel _ => fuel

/-- Mirrors `parse_function_call` (src/src/parser.py:625-639); called with
the LPAREN at the head of the token list. -/
def parse_function_call : Nat → Token → List Token → Except String (Expr × List Token)
  | 0, _, _ => .error "fuel exhausted"
  | Nat.succ n, funcTok, toks =>
    match expectTok "LPAREN" toks with
    | .error e => .error e
    | .ok (_, t1) =>
      match call_args n t1 with
      | .error e => .error e
      | .ok (args, t2) =>
        match expectTok "RPAREN" t2 with
        | .error e => .error e
        | .ok (_, t3) => .ok (.funcCallN funcTok args, t3)
termination_by structural fuel _ _ => fuel

/-- The argument list loop shared by `parse_function_call` and `parse_new`:
empty when the lookahead is RPAREN, else comma-separated expressions. -/
def call_args : Nat → List Token → Except String (List Expr × List Token)
  | 0, _ => .error "fuel exhausted"
  | Nat.succ n, toks =>
    match toks with
    | tok :: _ =>
      if tok.type == "RPAREN" then .ok ([], toks)
      else
        match parse_expression n toks with
        | .error e => .error e
        | .ok (a, t1) => call_args_rest n [a] t1
    | [] => .ok ([], toks)
termination_by structural fuel _ => fuel

/-- The `while COMMA` continuation of the argument list loop. -/
def call_args_rest : Nat → List Expr → List Token →
    Except String (List Expr × List Token)
  | 0, _, _ => .error "fuel exhausted"
  | Nat.succ n, acc, toks =>
    match toks with
    | tok :: rest =>
      if tok.type == "COMMA" then
        match parse_expression n rest with
        | .error e => .error e
        | .ok (a, t1) => call_args_rest n (acc ++ [a]) t1
      else .ok (acc, toks)
    | [] => .ok (acc, toks)
termination_by structural fuel _ _ => fuel
end

/-! Concrete programs and states used to settle the claims. -/

/-- Build a token of a given type name and text at default position. -/
def tk (ty v : String) : Token := { type := ty, value := v }

/-- The physical lines written to standard output: each `print` emits its
string followed by a newline, so a printed string containing newlines spans
several lines. -/
def output_lines (st : St) : List String :=
  st.output.flatMap (fun s => (splitOnNl s.toList).map String.mk)

/-- The tokens of a source string, or `[]` on a lexical error. -/
def toks (s : String) : List Token :=
  match lex_analysis s with
  | .ok ts => ts
  | .error _ => []

/-- Source text of the try/throw/catch/finally example. -/
def boom_src : String :=
  "try \x7b throw \"boom\"; \x7d catch (e) \x7b print(e); \x7d finally \x7b print(\"done\"); \x7d"

/-- The AST the parser produces for `boom_src`. -/
def boom_prog : Expr :=
  .programN [] [
    .tryN (.blockN [.throwN (.stringN (tk "STRING" "\"boom\""))])
      [(tk "VARIABLE" "e", Option.none, .blockN [.printN (.variableN (tk "VARIABLE" "e"))])]
      (some (.blockN [.printN (.stringN (tk "STRING" "\"done\""))]))]

/-- The formatted diagnostic that `interpret_throw` attaches to the
`RuntimeError` for `throw "boom"` (the AST nodes carry no `line`/`column`
attribute, so `getattr` yields 1/1). -/
def boom_msg : String := format_error "RuntimeError" "boom" "main.xn" boom_src 1 1

/-- Source text of the TypeError-in-try example. -/
def tyerr_src : String :=
  "try \x7b var x: int = 1.5; \x7d catch (e) \x7b print(\"caught\"); \x7d"

/-- The try body of the TypeError example: a declaration whose `int`
annotation makes the interpreter invoke the stored annotation token,
raising the host `TypeError: 'Token' object is not callable`. -/
def tyerr_body : Expr :=
  .blockN [.varDeclN (tk "VAR" "var") (tk "VARIABLE" "x")
    (some { type := "INT", value := "int", line := 1, column := 13 })
    (some (.numberN (tk "NUMBER" "1.5"))) []]

/-- The catch clauses of the TypeError example. -/
def tyerr_catches : List (Token × Option Token × Expr) :=
  [(tk "VARIABLE" "e", Option.none, .blockN [.printN (.stringN (tk "STRING" "\"caught\""))])]

/-- The TypeError example as a program. -/
def tyerr_prog : Expr := .programN [] [.tryN tyerr_body tyerr_catches Option.none]

/-- Source text of the for/continue example. -/
def cont_src : String :=
  "for (var i = 0; i < 3; i = i + 1) \x7b if (i == 1) \x7b continue; \x7d print(i); \x7d"

/-- The AST the parser produces for `cont_src`. -/
def cont_prog : Expr :=
  .programN [] [
    .forN
      (some (.varDeclN (tk "VAR" "var") (tk "VARIABLE" "i") Option.none
        (some (.numberN (tk "NUMBER" "0"))) []))
      (some (.binOpN (tk "LESS" "<") (.variableN (tk "VARIABLE" "i"))
        (.numberN (tk "NUMBER" "3"))))
      (some (.assignN (tk "ASSIGN" "=") (tk "VARIABLE" "i")
        (.binOpN (tk "PLUS" "+") (.variableN (tk "VARIABLE" "i"))
          (.numberN (tk "NUMBER" "1")))))
      (.blockN [
        .ifN (.binOpN (tk "EQUAL" "==") (.variableN (tk "VARIABLE" "i"))
            (.numberN (tk "NUMBER" "1")))
          (.blockN [.continueN]) Option.none,
        .printN (.variableN (tk "VARIABLE" "i"))])]

/-- Source text of the widening-division example. -/
def intdiv_src : String := "var x: int = 4 / 2;"

/-- The AST of `var x: int = 4 / 2;`. -/
def intdiv_prog : Expr :=
  .programN [] [.varDeclN (tk "VAR" "var") (tk "VARIABLE" "x")
    (some { type := "INT", value := "int", line := 1, column := 8 })
    (some (.binOpN (tk "DIVIDE" "/") (.numberN (tk "NUMBER" "4"))
      (.numberN (tk "NUMBER" "2")))) []]

/-- The annotation diagnostic the original C10 claim predicts for `4 / 2`;
the interpreter never reaches `check_type`, so it is never produced (see the
C10 counterexample). -/
def intdiv_msg : String :=
  format_error "TypeError" "Expected int, got float" "main.xn" intdiv_src 1 8

/-- Source text of the division-free annotated declaration. -/
def intdiv4_src : String := "var x: int = 4;"

/-- The AST of `var x: int = 4;`. -/
def intdiv4_prog : Expr :=
  .programN [] [.varDeclN (tk "VAR" "var") (tk "VARIABLE" "x")
    (some { type := "INT", value := "int", line := 1, column := 8 })
    (some (.numberN (tk "NUMBER" "4"))) []]

/-- An interpreter state in which `interpret_super`'s guard passes: a method
body is being evaluated for a `Dog` instance, `Dog`'s immediate superclass
`Animal` is on top of the superclass stack, and `this` is bound. -/
def dog_super_st : St :=
  { source := "super", filename := "main.xn",
    scopes := [[("this", Value.obj [("__class__", .str "Dog"), ("x", .int 1)])]],
    current_class := some "Dog",
    super_class_stack := ["Animal"] }

/-- A try body that exits by a `break` signal. -/
def brk_body : Expr := .blockN [.breakN]

/-- A finally block printing `done`. -/
def done_fin : Expr := .blockN [.printN (.stringN (tk "STRING" "\"done\""))]

/-- A member-call node, the left-hand side the specification claims the
assignment parser accepts. -/
def mc_lhs : Expr :=
  .memberCallN (.variableN (tk "VARIABLE" "a")) (tk "VARIABLE" "m") []

/-! Theorems settling the claims. -/

/-- C1 (counterexample): the try/throw/catch/finally example does not print
the line `boom` followed by the line `done` — the catch clause binds the
exception's formatted string form (`str(e)` of the `RuntimeError` built by
`interpret_throw` via `format_error`), not the bare thrown value, so the
first printed line is `RuntimeError: boom`. -/
theorem claim1_counterexample :
    ¬ (output_lines (interpret 100 (initSt boom_src "main.xn") boom_prog).1
        = ["boom", "done"]) := by
  decide

/-- C1 (amended): evaluating
`try \x7b throw "boom"; \x7d catch (e) \x7b print(e); \x7d finally \x7b print("done"); \x7d`
prints the formatted `RuntimeError` diagnostic — five physical lines, the
first being `RuntimeError: boom` — followed by the line `done`, and
completes without an unhandled error: the catch clause binds the caught
exception's string form to `e`, and the finally block runs after the catch
body. -/
theorem claim1_amended_output :
    (interpret 100 (initSt boom_src "main.xn") boom_prog).1.output = [boom_msg, "done"]
    ∧ (interpret 100 (initSt boom_src "main.xn") boom_prog).2 = Res.val Value.null
    ∧ output_lines (interpret 100 (initSt boom_src "main.xn") boom_prog).1 =
        ["RuntimeError: boom", "  File: main.xn", "  Line: 1, Column: 1",
         "  " ++ boom_src, "  ^", "done"] :=
  ⟨rfl, rfl, rfl⟩

/-- C2: in a state where `interpret_super`'s guard passes — current class
set, superclass stack topped by `Animal`, `this` a `Dog` instance — `super`
evaluates to a shallow copy whose `__class__` tag is still `Dog`, not the
immediate superclass `Animal`: the dict display
`\x7b'__class__': superclass_name, **this_obj\x7d` at
src/src/interpreter.py:938 is overridden by the spread's own `__class__`
entry, so the claimed re-tagging never happens. -/
theorem claim2_super_keeps_class_tag :
    (interpret 10 dog_super_st (Expr.superN (tk "SUPER" "super"))).2
      = Res.val (Value.obj [("__class__", Value.str "Dog"), ("x", Value.int 1)])
    ∧ dog_super_st.super_class_stack = ["Animal"] :=
  ⟨rfl, rfl⟩

/-- C3 (counterexample): a `TypeError` raised inside a `try` body — here
the host `TypeError: 'Token' object is not callable` from the annotated
declaration in
`try \x7b var x: int = 1.5; \x7d catch (e) \x7b print("caught"); \x7d` —
is not intercepted by the catch clause: the program ends with the
`TypeError` and prints nothing, because `interpret_try` catches only
`RuntimeError`. -/
theorem claim3_counterexample :
    (interpret 100 (initSt tyerr_src "main.xn") tyerr_prog).2
      = Res.err tokenCallErr
    ∧ (interpret 100 (initSt tyerr_src "main.xn") tyerr_prog).1.output = [] :=
  ⟨rfl, rfl⟩

/-- C3 (amended): only `RuntimeError` is intercepted by catch clauses.  A
`TypeError` raised while evaluating the try body passes the try/catch phase
untouched — no clause binds it and no catch body runs — and propagates past
a `try` without a finally block unchanged. -/
theorem claim3_typeerror_passes_catches :
    ∀ (n : Nat) (st : St) (body : Expr) (catches : List (Token × Option Token × Expr))
      (st1 : St) (m : String),
      interpret n st body = (st1, Res.err (Err.ty m)) →
      try_phase (n + 1) st body catches = (st1, Res.err (Err.ty m))
      ∧ interpret (n + 2) st (Expr.tryN body catches Option.none)
          = (st1, Res.err (Err.ty m)) := by
  intro n st body catches st1 m h
  constructor
  · simp [try_phase, h]
  · simp [interpret, try_phase, h]

/-- C3 (witness): the amended theorem at the concrete failed-annotation
program. -/
theorem claim3_witness :
    try_phase 98 (initSt tyerr_src "main.xn") tyerr_body tyerr_catches
      = ((interpret 97 (initSt tyerr_src "main.xn") tyerr_body).1,
         Res.err (Err.ty "'Token' object is not callable"))
    ∧ interpret 99 (initSt tyerr_src "main.xn")
        (Expr.tryN tyerr_body tyerr_catches Option.none)
      = ((interpret 97 (initSt tyerr_src "main.xn") tyerr_body).1,
         Res.err (Err.ty "'Token' object is not callable")) :=
  claim3_typeerror_passes_catches 97 (initSt tyerr_src "main.xn") tyerr_body
    tyerr_catches (interpret 97 (initSt tyerr_src "main.xn") tyerr_body).1
    "'Token' object is not callable" rfl

/-- C4 (counterexample): the specification's acceptance set for an
assignment target includes member-call nodes, but the parser's check —
`isinstance(expr, VariableNode)` — rejects a member-call left-hand side
followed by `=` with the `Invalid assignment target` SyntaxError. -/
theorem claim4_counterexample :
    claimed_assign_target mc_lhs = true
    ∧ assign_cont 5 mc_lhs
        [⟨"ASSIGN", "=", 2, 1, 3, false⟩, ⟨"NUMBER", "1", 4, 1, 5, false⟩]
      = Except.error "Invalid assignment target at position 2" :=
  ⟨rfl, rfl⟩

/-- C4 (amended): the parser accepts the already-parsed left-hand side of an
assignment exactly when it is a variable reference — a member-call (or any
other) node followed by `=` raises the `Invalid assignment target`
SyntaxError — and assignment nests right-associatively: after a variable
target the right-hand side is a whole `parse_expression`, so
`a = b = c` parses with `b = c` as the right-hand side. -/
theorem claim4_assignment_target :
    (∀ e : Expr, assign_target_ok e = true ↔ ∃ t, e = Expr.variableN t)
    ∧ (∀ (n : Nat) (e : Expr) (tok : Token) (rest : List Token),
        tok.type = "ASSIGN" → assign_target_ok e = false →
        assign_cont (n + 1) e (tok :: rest)
          = Except.error ("Invalid assignment target at position "
              ++ toString tok.position))
    ∧ (∀ (n : Nat) (vtok tok : Token) (rest : List Token),
        tok.type = "ASSIGN" →
        assign_cont (n + 1) (Expr.variableN vtok) (tok :: rest)
          = match parse_expression n rest with
            | .error er => .error er
            | .ok (v, t2) => .ok (.assignN tok vtok v, t2))
    ∧ parse_expression 50 (toks "a = b = c")
        = Except.ok (.assignN ⟨"ASSIGN", "=", 2, 1, 3, false⟩
            ⟨"VARIABLE", "a", 0, 1, 1, false⟩
            (.assignN ⟨"ASSIGN", "=", 6, 1, 7, false⟩
              ⟨"VARIABLE", "b", 4, 1, 5, false⟩
              (.variableN ⟨"VARIABLE", "c", 8, 1, 9, false⟩)), []) := by
  refine ⟨?_, ?_, ?_, ?_⟩
  · intro e
    cases e <;> simp [assign_target_ok]
  · intro n e tok rest h1 h2
    simp [assign_cont, h1, h2]
  · intro n vtok tok rest h1
    rcases hp : parse_expression n rest with er | ⟨v, t2⟩ <;>
      simp [assign_cont, h1, assign_target_ok, hp]
  · rfl

/-- C4 (witness): the amended theorem at a concrete non-variable target. -/
theorem claim4_witness :
    assign_cont 5 (Expr.numberN (tk "NUMBER" "1"))
        [⟨"ASSIGN", "=", 2, 1, 3, false⟩]
      = Except.error ("Invalid assignment target at position " ++ toString (2 : Nat)) :=
  claim4_assignment_target.2.1 4 (Expr.numberN (tk "NUMBER" "1"))
    ⟨"ASSIGN", "=", 2, 1, 3, false⟩ [] rfl rfl

/-- When no frame binds the name, the innermost-to-outermost update finds
nothing. -/
theorem set_in_scopes_none (scopes : List Frame) (name : String) (v : Value)
    (h : ∀ f ∈ scopes, aget f name = Option.none) :
    set_in_scopes scopes name v = Option.none := by
  induction scopes with
  | nil => rfl
  | cons f rest ih =>
    have hf := h f (List.mem_cons_self f rest)
    simp [set_in_scopes, hf, ih (fun g hg => h g (List.mem_cons_of_mem f hg))]

/-- The innermost-to-outermost update rewrites exactly the first frame that
binds the name, leaving every other frame untouched. -/
theorem set_in_scopes_found (pre : List Frame) (f : Frame) (post : List Frame)
    (name : String) (v : Value)
    (hpre : ∀ g ∈ pre, aget g name = Option.none)
    (hf : (aget f name).isSome) :
    set_in_scopes (pre ++ f :: post) name v
      = some (pre ++ aset f name v :: post) := by
  induction pre with
  | nil => simp [set_in_scopes, hf]
  | cons g rest ih =>
    have hg := hpre g (List.mem_cons_self g rest)
    simp [set_in_scopes, hg,
      ih (fun g' hg' => hpre g' (List.mem_cons_of_mem g hg'))]

/-- Updating a bound key rewrites it in place: the frame's key list — hence
its set of bindings — is unchanged, so no new binding is created. -/
theorem aset_keys (f : Frame) (name : String) (v : Value)
    (h : (aget f name).isSome) :
    (aset f name v).map Prod.fst = f.map Prod.fst := by
  induction f with
  | nil => simp [aget] at h
  | cons kv rest ih =>
    by_cases hk : kv.1 == name
    · rcases kv with ⟨k, w⟩
      simp only [aset, hk, if_pos]
      simp [List.map_cons]
      exact (eq_of_beq hk).symm
    · rcases kv with ⟨k, w⟩
      simp only [aget, List.find?] at h
      simp only [aset]
      rw [if_neg (by simpa using hk)]
      simp only [List.map_cons, List.cons.injEq, true_and]
      apply ih
      simp only [aget, List.find?] at h ⊢
      simpa [hk] using h

/-- C5: assignment requires an existing binding.  When no frame on the scope
stack binds the name at `set_variable` time, `interpret_assign` raises the
located `Undefined variable` RuntimeError and leaves the scope stack exactly
as it was — no frame gains a binding.  When some frame binds it, the
innermost such frame (the first in innermost-to-outermost order) is updated
in place and, since the frame's key list is unchanged, no new binding is
created anywhere. -/
theorem claim5_assign_requires_binding :
    (∀ (n : Nat) (st : St) (tok vtok : Token) (ex : Expr) (st1 : St) (v : Value),
        interpret n st ex = (st1, Res.val v) →
        (∀ f ∈ st1.scopes, aget f vtok.value = Option.none) →
        interpret (n + 1) st (Expr.assignN tok vtok ex)
          = (st1, Res.err (.rt (format_error "RuntimeError"
              ("Undefined variable: " ++ vtok.value) st1.filename st1.source
              vtok.line vtok.column))))
    ∧ (∀ (pre : List Frame) (f : Frame) (post : List Frame) (name : String) (v : Value),
        (∀ g ∈ pre, aget g name = Option.none) → (aget f name).isSome →
        set_in_scopes (pre ++ f :: post) name v
          = some (pre ++ aset f name v :: post))
    ∧ (∀ (f : Frame) (name : String) (v : Value), (aget f name).isSome →
        (aset f name v).map Prod.fst = f.map Prod.fst) := by
  refine ⟨?_, set_in_scopes_found, aset_keys⟩
  intro n st tok vtok ex st1 v h hnone
  simp [interpret, bindV, h, set_variable, set_in_scopes_none st1.scopes vtok.value v hnone]

/-- C5 (witness): assigning `y = 1` with an empty global frame raises the
located `Undefined variable: y` RuntimeError and leaves the state unchanged. -/
theorem claim5_witness :
    interpret 4 (initSt "y = 1;" "main.xn")
        (Expr.assignN (tk "ASSIGN" "=") (tk "VARIABLE" "y")
          (.numberN (tk "NUMBER" "1")))
      = (initSt "y = 1;" "main.xn", Res.err (.rt (format_error "RuntimeError"
          "Undefined variable: y" "main.xn" "y = 1;" 1 1))) := by
  have h := claim5_assign_requires_binding.1 3 (initSt "y = 1;" "main.xn")
    (tk "ASSIGN" "=") (tk "VARIABLE" "y") (.numberN (tk "NUMBER" "1"))
    (initSt "y = 1;" "main.xn") (.int 1) rfl
    (by intro f hf; simp [initSt] at hf; simp [hf, aget])
  exact h

/-- C6: a `finally` block executes exactly once on every exit path of the
try/catch phase — a value, a surviving exception (of any kind), or a
propagating break/continue signal — after that phase's outcome is
determined and before the outcome is handed to the caller: the `try`'s
result pairs the state left by one evaluation of the finally block
(started from the post-phase state) with the phase outcome, except that an
exception raised by the finally block itself replaces the outcome. -/
theorem claim6_finally_every_exit :
    (∀ (n : Nat) (st : St) (body : Expr)
        (catches : List (Token × Option Token × Expr)) (f : Expr)
        (st2 : St) (v2 : Value) (st3 : St) (vf : Value),
        try_phase n st body catches = (st2, Res.val v2) →
        interpret n st2 f = (st3, Res.val vf) →
        interpret (n + 1) st (Expr.tryN body catches (some f)) = (st3, Res.val v2))
    ∧ (∀ (n : Nat) (st : St) (body : Expr)
        (catches : List (Token × Option Token × Expr)) (f : Expr)
        (st2 : St) (e2 : Err) (st3 : St) (vf : Value),
        try_phase n st body catches = (st2, Res.err e2) →
        interpret n st2 f = (st3, Res.val vf) →
        interpret (n + 1) st (Expr.tryN body catches (some f)) = (st3, Res.err e2))
    ∧ (∀ (n : Nat) (st : St) (body : Expr)
        (catches : List (Token × Option Token × Expr)) (f : Expr)
        (st2 : St) (sg : Sig) (st3 : St) (vf : Value),
        try_phase n st body catches = (st2, Res.sig sg) →
        interpret n st2 f = (st3, Res.val vf) →
        interpret (n + 1) st (Expr.tryN body catches (some f)) = (st3, Res.sig sg))
    ∧ (∀ (n : Nat) (st : St) (body : Expr)
        (catches : List (Token × Option Token × Expr)) (f : Expr)
        (st2 : St) (r2 : Res) (st3 : St) (e3 : Err),
        try_phase n st body catches = (st2, r2) → r2 ≠ Res.fuelOut →
        interpret n st2 f = (st3, Res.err e3) →
        interpret (n + 1) st (Expr.tryN body catches (some f)) = (st3, Res.err e3)) := by
  refine ⟨?_, ?_, ?_, ?_⟩
  · intro n st body catches f st2 v2 st3 vf h1 h2
    simp [interpret, h1, h2]
  · intro n st body catches f st2 e2 st3 vf h1 h2
    simp [interpret, h1, h2]
  · intro n st body catches f st2 sg st3 vf h1 h2
    simp [interpret, h1, h2]
  · intro n st body catches f st2 r2 st3 e3 h1 hne h2
    cases r2 <;> simp_all [interpret, h1, h2]

/-- C6 (witness): a try body exiting by `break` still runs the finally
block once — the final state carries `done` on the output — before the
break signal is handed on. -/
theorem claim6_witness :
    interpret 51 (initSt "t" "f") (Expr.tryN brk_body [] (some done_fin))
      = ((interpret 50 (initSt "t" "f") done_fin).1, Res.sig .brk) :=
  claim6_finally_every_exit.2.2.1 50 (initSt "t" "f") brk_body [] done_fin
    (initSt "t" "f") .brk (interpret 50 (initSt "t" "f") done_fin).1
    Value.null rfl rfl

/-- C8: a `continue` signal from a statement stops the enclosing block
(the remaining statements are skipped and the signal propagates), and a
`for`-loop iteration whose body yields `continue` runs the step expression
before re-testing the condition; in particular the example
`for (var i = 0; i < 3; i = i + 1) \x7b if (i == 1) \x7b continue; \x7d print(i); \x7d`
prints `0` then `2` and completes normally. -/
theorem claim8_continue_runs_step :
    (∀ (n : Nat) (st : St) (s : Expr) (rest : List Expr) (st1 : St),
        interpret n st s = (st1, Res.sig .cont) →
        block_stmts (n + 1) st (s :: rest) = (st1, Res.sig .cont))
    ∧ (∀ (n : Nat) (st : St) (cond stepE : Option Expr) (body : Expr) (st1 : St),
        interpret n st body = (st1, Res.sig .cont) →
        for_body (n + 1) st cond stepE body = for_step n st1 cond stepE body)
    ∧ (interpret 100 (initSt cont_src "main.xn") cont_prog).1.output = ["0", "2"]
    ∧ (interpret 100 (initSt cont_src "main.xn") cont_prog).2 = Res.val Value.null := by
  refine ⟨?_, ?_, rfl, rfl⟩
  · intro n st s rest st1 h
    simp [block_stmts, h]
  · intro n st cond stepE body st1 h
    simp [for_body, h]

/-- C8 (witness): a `continue` statement at the head of a block makes the
block yield the signal immediately, skipping the rest. -/
theorem claim8_witness :
    block_stmts 2 (initSt "s" "f")
        [Expr.continueN, Expr.printN (.stringN (tk "STRING" "\"x\""))]
      = (initSt "s" "f", Res.sig .cont) :=
  claim8_continue_runs_step.1 1 (initSt "s" "f") Expr.continueN
    [Expr.printN (.stringN (tk "STRING" "\"x\""))] (initSt "s" "f") rfl

/-- C10 (amended): division of two integer values with a non-zero divisor
always yields a float-tagged value — Python's true division — never an
integer; but `var x: int = 4 / 2;` never reaches the `int` annotation
check: after the initializer evaluates, the interpreter invokes the stored
annotation token and the program ends with the uncaught host
`TypeError: 'Token' object is not callable`, as every annotated declaration
does whatever its value. -/
theorem claim10_int_division_widens :
    (∀ (l r : Int) (st : St) (op : Token), op.type = "DIVIDE" → r ≠ 0 →
        interpret_binary_op_v st op (.int l) (.int r)
          = Res.val (.float (divF (ofIntF l) (ofIntF r))))
    ∧ (interpret 100 (initSt intdiv_src "main.xn") intdiv_prog).2
        = Res.err tokenCallErr := by
  refine ⟨?_, rfl⟩
  intro l r st op h hr
  have hz : pyEq (.int r) (.int 0) = false := by
    simp [pyEq, toFloatV, beqF, ofIntF, hr]
  simp [interpret_binary_op_v, h, hz, toFloatV]

/-- C10 (counterexample): `var x: int = 4 / 2;` does not raise the
`Expected int, got float` annotation TypeError the claim predicts — the
program dies with the host `TypeError: 'Token' object is not callable` from
invoking the stored annotation token, exactly as the division-free
`var x: int = 4;` does, so the failure owes nothing to the widening. -/
theorem claim10_counterexample :
    (interpret 100 (initSt intdiv_src "main.xn") intdiv_prog).2
      = Res.err tokenCallErr
    ∧ (interpret 100 (initSt intdiv4_src "main.xn") intdiv4_prog).2
      = Res.err tokenCallErr
    ∧ tokenCallErr ≠ Err.ty intdiv_msg := by
  refine ⟨rfl, rfl, ?_⟩
  decide

/-- The first-match property of the lexer's scan: a produced token comes
from the earliest pattern in the priority list that matches, and every
pattern before it fails at that position. -/
theorem first_match_spec :
    ∀ (order : List String) (s : List Char) (name : String) (m : List Char),
      first_match order s = some (name, m) →
      ∃ pre post, order = pre ++ name :: post ∧ patMatch name s = some m ∧
        ∀ p ∈ pre, patMatch p s = Option.none := by
  intro order
  induction order with
  | nil => intro s name m h; simp [first_match] at h
  | cons hd tl ih =>
    intro s name m h
    rcases hp : patMatch hd s with _ | m'
    · rw [first_match, hp] at h
      rcases ih s name m h with ⟨pre, post, heq, hm, hnone⟩
      refine ⟨hd :: pre, post, by simp [heq], hm, ?_⟩
      intro p hp2
      rcases List.mem_cons.mp hp2 with h1 | h2
      · rw [h1]; exact hp
      · exact hnone p h2
    · rw [first_match, hp] at h
      injection h with h'
      cases h'
      exact ⟨[], tl, rfl, hp, by simp⟩

theorem keyword_if_wins :
    ∀ (s : List Char) (m : List Char), patMatch "IF" s = some m →
      m = ['i', 'f'] ∧ first_match token_order s = some ("IF", ['i', 'f']) := by
  intro s m h
  have h' : kwMatch "if" s = some m := h
  unfold kwMatch at h'
  rcases s with _ | ⟨a, s1⟩
  · simp [List.isPrefixOf] at h'
  rcases s1 with _ | ⟨b, s2⟩
  · simp [List.isPrefixOf] at h'
  by_cases ha : a = 'i'
  · by_cases hb : b = 'f'
    · subst ha; subst hb
      simp [List.isPrefixOf] at h'
      rcases s2 with _ | ⟨c, s3⟩
      · simp at h'
        constructor
        · exact h'.symm
        · rfl
      · by_cases hc : isWordChar c
        · simp [hc] at h'
        · simp [hc] at h'
          refine ⟨h'.symm, ?_⟩
          show first_match token_order ('i' :: 'f' :: c :: s3) = some ("IF", ['i', 'f'])
          simp [first_match, patMatch, litMatch, kwMatch, List.isPrefixOf, hc]
    · simp [List.isPrefixOf] at h'
      exact absurd h'.1.2.symm hb
  · simp [List.isPrefixOf] at h'
    exact absurd h'.1.1.symm ha


/-- C7: the lexer tries its fixed priority-ordered pattern list at each
position and emits a token for the first pattern that matches (never a
longer later match): every pattern preceding the winner fails at that
position; the identifier pattern is the last entry of the priority list;
an exact `if` keyword always lexes as the IF token and never as an
identifier; and an unmatched character produces a located lexical error. -/
theorem claim7_lexer_first_match :
    (∀ (order : List String) (s : List Char) (name : String) (m : List Char),
        first_match order s = some (name, m) →
        ∃ pre post, order = pre ++ name :: post ∧ patMatch name s = some m ∧
          ∀ p ∈ pre, patMatch p s = Option.none)
    ∧ token_order.getLast? = some "VARIABLE"
    ∧ (∀ (s m : List Char), patMatch "IF" s = some m →
        m = ['i', 'f'] ∧ first_match token_order s = some ("IF", ['i', 'f']))
    ∧ lex_analysis "@" = Except.error (.unexpected '@' 1 1) :=
  ⟨first_match_spec, rfl, keyword_if_wins, rfl⟩

/-- C7 (witness): the source `if x` starts with the exact keyword `if`, and
the scan emits the IF token for it. -/
theorem claim7_witness :
    ['i', 'f'] = ['i', 'f']
    ∧ first_match token_order "if x".toList = some ("IF", ['i', 'f']) :=
  claim7_lexer_first_match.2.2.1 "if x".toList ['i', 'f'] rfl

/-- C10 (witness): `4 / 2` evaluates to the float `2.0`, not an integer. -/
theorem claim10_witness :
    interpret_binary_op_v (initSt "s" "f") (tk "DIVIDE" "/") (.int 4) (.int 2)
      = Res.val (.float (divF (ofIntF 4) (ofIntF 2))) :=
  claim10_int_division_widens.1 4 2 (initSt "s" "f") (tk "DIVIDE" "/") rfl
    (by decide)


/-! ### C9: the scope-stack depth invariant

Helper lemmas about the state operations, then a mutual (fuel-induction)
master lemma covering every function of the evaluator bundle. -/

theorem push_scope_len (st : St) : (push_scope st).scopes.length = st.scopes.length + 1 := by
  simp [push_scope]

theorem pop_scope_len (st : St) : (pop_scope st).scopes.length = st.scopes.length - 1 := by
  simp [pop_scope]

theorem declare_len (st : St) (n : String) (v : Value) :
    (declare st n v).scopes.length = st.scopes.length := by
  unfold declare
  rcases h : st.scopes with _ | ⟨f, rest⟩ <;> simp [h]

theorem import_scopes (st : St) (d : ImportStmt) :
    (interpret_import st d).scopes = st.scopes := by
  unfold interpret_import
  split
  · rfl
  · split <;> rfl

theorem imports_fold_scopes (l : List ImportStmt) (st : St) :
    (l.foldl interpret_import st).scopes = st.scopes := by
  induction l generalizing st with
  | nil => rfl
  | cons d rest ih => simp [List.foldl_cons, ih, import_scopes]

theorem set_in_scopes_len (scopes : List Frame) (n : String) (v : Value) (s' : List Frame)
    (h : set_in_scopes scopes n v = some s') : s'.length = scopes.length := by
  induction scopes generalizing s' with
  | nil => simp [set_in_scopes] at h
  | cons f rest ih =>
    unfold set_in_scopes at h
    split at h
    · injection h with h'; subst h'; simp
    · rcases hr : set_in_scopes rest n v with _ | r'
      · rw [hr] at h; simp at h
      · rw [hr] at h; simp at h
        subst h
        simp [ih r' hr]

theorem set_variable_len (st : St) (n : String) (v : Value) (l c : Nat) (st' : St)
    (h : set_variable st n v l c = .ok st') : st'.scopes.length = st.scopes.length := by
  unfold set_variable at h
  split at h
  · injection h with h'; subst h'
    simp [set_in_scopes_len _ _ _ _ (by assumption)]
  · exact absurd h (by simp)

theorem bind_params_len (ps : List ParamNode) (vs : List Value) (st : St) :
    (bind_params st ps vs).1.scopes.length = st.scopes.length := by
  induction ps generalizing st vs with
  | nil => rcases vs <;> simp [bind_params]
  | cons p rest ih =>
    rcases vs with _ | ⟨a, vrest⟩
    · simp [bind_params]
    · simp only [bind_params]
      split
      · simp
      · split
        · split
          · simp
          · rw [ih]; simp [declare_len]
        · rw [ih]; simp [declare_len]

theorem fold_declare_len (ts : List Token) (st : St) :
    (ts.foldl (fun s t => declare s t.value (.str t.value)) st).scopes.length
      = st.scopes.length := by
  induction ts generalizing st with
  | nil => rfl
  | cons t rest ih => simp [List.foldl_cons, ih, declare_len]

theorem bindV_len (L : Nat) (s : St × Res) (k : St → Value → St × Res)
    (hs : s.1.scopes.length = L)
    (hk : ∀ v, (k s.1 v).1.scopes.length = L) :
    (bindV s k).1.scopes.length = L := by
  rcases s with ⟨st, r⟩
  cases r <;> simp [bindV] at hs ⊢ <;> first | exact hs | exact hk _



set_option maxHeartbeats 1600000

theorem scope_depth_all : ∀ fuel : Nat,
    (∀ st e, ((interpret fuel st e).1).scopes.length = st.scopes.length)
    ∧ (∀ st l, ((program_stmts fuel st l).1).scopes.length = st.scopes.length)
    ∧ (∀ st l, ((block_stmts fuel st l).1).scopes.length = st.scopes.length)
    ∧ (∀ st l, ((eval_args fuel st l).1).scopes.length = st.scopes.length)
    ∧ (∀ st c b, ((while_loop fuel st c b).1).scopes.length = st.scopes.length)
    ∧ (∀ st b c, ((do_while_loop fuel st b c).1).scopes.length = st.scopes.length)
    ∧ (∀ st c sE b, ((for_iter fuel st c sE b).1).scopes.length = st.scopes.length)
    ∧ (∀ st c sE b, ((for_body fuel st c sE b).1).scopes.length = st.scopes.length)
    ∧ (∀ st c sE b, ((for_step fuel st c sE b).1).scopes.length = st.scopes.length)
    ∧ (∀ st v cs d, ((switch_cases fuel st v cs d).1).scopes.length = st.scopes.length)
    ∧ (∀ st b cs, ((try_phase fuel st b cs).1).scopes.length = st.scopes.length)
    ∧ (∀ st er cs, ((run_catches fuel st er cs).1).scopes.length = st.scopes.length)
    ∧ (∀ st p hS i m, ((class_body fuel st p hS i m).1).scopes.length = st.scopes.length)
    ∧ (∀ st m, ((class_members fuel st m).1).scopes.length = st.scopes.length)
    ∧ (∀ st m, ((enum_members fuel st m).1).scopes.length = st.scopes.length)
    ∧ (∀ st m inst, ((new_members fuel st m inst).1).scopes.length = st.scopes.length) := by
  intro fuel
  induction fuel with
  | zero =>
    refine ⟨?_, ?_, ?_, ?_, ?_, ?_, ?_, ?_, ?_, ?_, ?_, ?_, ?_, ?_, ?_, ?_⟩ <;>
      intros <;> rfl
  | succ n ihAll =>
    obtain ⟨IH, IHprog, IHblock, IHargs, IHwhile, IHdo, IHiter, IHbody, IHstep,
      IHswitch, IHtry, IHcatch, IHcbody, IHcmem, IHemem, IHnewm⟩ := ihAll
    refine ⟨?_, ?_, ?_, ?_, ?_, ?_, ?_, ?_, ?_, ?_, ?_, ?_, ?_, ?_, ?_, ?_⟩
    -- interpret
    · intro st e
      cases e with
      | programN imports stmts =>
        simp only [interpret]
        rw [IHprog, imports_fold_scopes]
      | importN d =>
        simp only [interpret]
        simp [import_scopes]
      | numberN tok =>
        simp only [interpret]
        repeat' split
        all_goals rfl
      | stringN tok => rfl
      | charN tok => rfl
      | booleanN tok => rfl
      | nullN tok => rfl
      | variableN tok =>
        simp only [interpret]
        split <;> rfl
      | assignN tok vtok ex =>
        simp only [interpret]
        refine bindV_len _ _ _ (IH st ex) ?_
        intro v
        rcases hsv : set_variable (interpret n st ex).1 vtok.value v vtok.line vtok.column
          with e | st2
        · simp only [hsv]
          exact IH st ex
        · simp only [hsv]
          rw [set_variable_len _ _ _ _ _ _ hsv]
          exact IH st ex
      | varDeclN vt vtok tyTok initE mods =>
        rcases initE with _ | e0
        · simp only [interpret, bindV]
          repeat' split
          all_goals simp [declare_len]
        · simp only [interpret]
          refine bindV_len _ _ _ (IH st e0) ?_
          intro v
          repeat' split
          all_goals simp [declare_len, IH st e0]
      | valDeclN vt vtok tyTok e0 mods =>
        simp only [interpret]
        refine bindV_len _ _ _ (IH st e0) ?_
        intro v
        repeat' split
        all_goals simp [declare_len, IH st e0]
      | constDeclN vt vtok tyTok e0 mods =>
        simp only [interpret]
        refine bindV_len _ _ _ (IH st e0) ?_
        intro v
        repeat' split
        all_goals simp [declare_len, IH st e0]
      | binOpN op l r =>
        simp only [interpret]
        refine bindV_len _ _ _ (IH st l) ?_
        intro lv
        refine bindV_len _ _ _ ((IH _ r).trans (IH st l)) ?_
        intro rv
        exact (IH _ r).trans (IH st l)
      | unaryOpN op operand isP =>
        simp only [interpret]
        refine bindV_len _ _ _ (IH st operand) ?_
        intro v
        split
        · split
          · rename_i vtok
            rcases hg : get_variable (interpret n st (Expr.variableN vtok)).1 vtok.value
                vtok.line vtok.column with e | old
            · simp only [hg]
              exact IH st _
            · simp only [hg]
              rcases ho : toFloatV old with _ | q
              · simp only [ho]
                exact IH st _
              · simp only [ho]
                split
                · rcases hsv : set_variable (interpret n st (Expr.variableN vtok)).1
                      vtok.value (pyInc old 1) vtok.line vtok.column with e2 | st2
                  · simp only [hsv]
                    exact IH st _
                  · simp only [hsv]
                    rw [set_variable_len _ _ _ _ _ _ hsv]
                    exact IH st _
                · split
                  · rcases hsv : set_variable (interpret n st (Expr.variableN vtok)).1
                        vtok.value (pyInc old (-1)) vtok.line vtok.column with e2 | st2
                    · simp only [hsv]
                      exact IH st _
                    · simp only [hsv]
                      rw [set_variable_len _ _ _ _ _ _ hsv]
                      exact IH st _
                  · exact IH st _
          · exact IH st operand
        · exact IH st operand
      | nullCoalesceN l r =>
        simp only [interpret]
        refine bindV_len _ _ _ (IH st l) ?_
        intro v
        split
        all_goals first
          | exact (IH _ r).trans (IH st l)
          | exact IH st l
      | elvisN l r =>
        simp only [interpret]
        refine bindV_len _ _ _ (IH st l) ?_
        intro v
        split
        all_goals first
          | exact (IH _ r).trans (IH st l)
          | exact IH st l
      | ifN cond thenB elseB =>
        simp only [interpret]
        refine bindV_len _ _ _ (IH st cond) ?_
        intro c
        repeat' split
        all_goals first
          | exact (IH _ _).trans (IH st cond)
          | exact IH st cond
      | whileN cond body =>
        simp only [interpret]
        exact IHwhile st cond body
      | doWhileN body cond =>
        simp only [interpret]
        exact IHdo st body cond
      | forN init cond stepE body =>
        rcases init with _ | i0
        · simp only [interpret]
          simp [pop_scope_len, IHiter, push_scope_len]
        · simp only [interpret]
          rcases hX : interpret n st i0 with ⟨st1, r1⟩
          have h1 : st1.scopes.length = st.scopes.length := by
            have := IH st i0; rw [hX] at this; exact this
          cases r1 <;> simp [pop_scope_len, IHiter, push_scope_len, h1]
      | switchN subj cs dflt =>
        simp only [interpret]
        refine bindV_len _ _ _ (IH st subj) ?_
        intro v
        exact (IHswitch _ v cs dflt).trans (IH st subj)
      | tryN body catches finallyB =>
        simp only [interpret]
        rcases hT : try_phase n st body catches with ⟨st2, r2⟩
        have h2 : st2.scopes.length = st.scopes.length := by
          have := IHtry st body catches; rw [hT] at this; exact this
        have hFin : ∀ f : Expr,
            ((match interpret n st2 f with
              | (st3, Res.err e3) => (st3, Res.err e3)
              | (st3, Res.fuelOut) => (st3, Res.fuelOut)
              | (st3, _) => (st3, r2)).1).scopes.length = st.scopes.length := by
          intro f
          rcases hF : interpret n st2 f with ⟨st3, r3⟩
          have h3 : st3.scopes.length = st2.scopes.length := by
            have := IH st2 f; rw [hF] at this; exact this
          cases r3 <;> simp <;> exact h3.trans h2
        cases r2 <;> rcases finallyB with _ | f <;>
          first
            | exact h2
            | exact hFin f
      | throwN ex =>
        simp only [interpret]
        refine bindV_len _ _ _ (IH st ex) ?_
        intro v
        exact IH st ex
      | funcDefN nameT params rt0 body mods =>
        simp only [interpret]
        split <;> rfl
      | funcCallN funcTok args =>
        simp only [interpret]
        rcases hA : aget st.functions funcTok.value with _ | fd
        · simp [hA]
        · simp only [hA]
          rcases hM : check_modifiers st fd.modifiers funcTok.line funcTok.column with _ | er
          · simp only [hM]
            rcases hE : eval_args n st args with ⟨st1, ar⟩
            have h1 : st1.scopes.length = st.scopes.length := by
              have := IHargs st args; rw [hE] at this; exact this
            rcases ar with r | argv
            · exact h1
            · by_cases hlen : argv.length = fd.params.length
              · rcases hB : bind_params (push_scope st1) fd.params argv with ⟨st3, ob⟩
                have h3 : st3.scopes.length = st1.scopes.length + 1 := by
                  have := bind_params_len fd.params argv (push_scope st1)
                  rw [hB] at this
                  simpa [push_scope_len] using this
                rcases ob with _ | er2
                · rcases hI : interpret n st3 fd.body with ⟨st4, r4⟩
                  have h4 : st4.scopes.length = st3.scopes.length := by
                    have := IH st3 fd.body; rw [hI] at this; exact this
                  rcases hr : fd.return_type with _ | ret <;> cases r4 <;>
                    simp [hE, hlen, hB, hI, hr, pop_scope_len, h4, h3, h1]
                · simp [hE, hlen, hB, pop_scope_len, h3, h1]
              · simp [hE, hlen, h1]
          · simp [hM]
      | memberCallN objE methodTok args =>
        simp only [interpret]
        refine bindV_len _ _ _ (IH st objE) ?_
        intro ov
        have h1 : (interpret n st objE).1.scopes.length = st.scopes.length := IH st objE
        cases ov
        case obj fields =>
          rcases hCC : aget fields "__class__" with _ | cv
          · simp only [hCC]
            exact h1
          · simp only [hCC]
            rcases hCl : aget (interpret n st objE).1.classes (className cv) with _ | cd
            · simp only [hCl]
              exact h1
            · simp only [hCl]
              rcases hFm : find_method cd.members methodTok.value with _ | m4
              · simp only [hFm]
                exact h1
              · rcases m4 with ⟨ps, rt0, body, mods⟩
                simp only [hFm]
                rcases hM : check_modifiers (interpret n st objE).1 mods
                    methodTok.line methodTok.column with _ | er
                · simp only [hM]
                  rcases hE : eval_args n (interpret n st objE).1 args with ⟨st2, ar⟩
                  have h2 : st2.scopes.length = st.scopes.length := by
                    have := IHargs (interpret n st objE).1 args
                    rw [hE] at this
                    exact this.trans h1
                  rcases ar with r | argv
                  · exact h2
                  · by_cases hlen : argv.length = ps.length
                    · rcases hB : bind_params (push_scope st2) ps argv with ⟨st4, ob⟩
                      have h4 : st4.scopes.length = st2.scopes.length + 1 := by
                        have := bind_params_len ps argv (push_scope st2)
                        rw [hB] at this
                        simpa [push_scope_len] using this
                      rcases ob with _ | er2
                      · rcases hI : interpret n (declare st4 "this" (.obj fields)) body
                            with ⟨st6, r6⟩
                        have h6 : st6.scopes.length = st4.scopes.length := by
                          have := IH (declare st4 "this" (.obj fields)) body
                          rw [hI] at this
                          rw [this, declare_len]
                        cases r6 <;> simp [hE, hlen, hB, hI, pop_scope_len, h6, h4, h2]
                      · simp [hE, hlen, hB, pop_scope_len, h4, h2]
                    · simp [hE, hlen, h2]
                · simp only [hM]
                  exact h1
        all_goals exact h1
      | lambdaN ps body => rfl
      | classN nameT sup ifaces members mods =>
        simp only [interpret]
        rcases sup with _ | sTok
        · exact IHcbody _ _ _ _ _
        · split
          · rename_i a heq
            injection heq with heq2
            subst heq2
            split
            · simp
            · exact IHcbody _ _ _ _ _
          · exact IHcbody _ _ _ _ _
      | interfaceN nameT members mods => rfl
      | enumN nameT values members =>
        simp only [interpret]
        exact (IHemem _ _).trans (fold_declare_len _ _)
      | returnN ex =>
        rcases ex with _ | e0
        · rfl
        · simp only [interpret]
          exact IH st e0
      | printN e0 =>
        simp only [interpret]
        refine bindV_len _ _ _ (IH st e0) ?_
        intro v
        exact IH st e0
      | instanceOfN e0 tok =>
        simp only [interpret]
        refine bindV_len _ _ _ (IH st e0) ?_
        intro v
        exact IH st e0
      | newN tok args =>
        simp only [interpret]
        rcases hC : aget st.classes tok.value with _ | cd
        · simp [hC]
        · simp only [hC]
          rcases hE : eval_args n st args with ⟨st1, ar⟩
          have h1 : st1.scopes.length = st.scopes.length := by
            have := IHargs st args; rw [hE] at this; exact this
          rcases ar with r | argv
          · exact h1
          · rcases hN : new_members n
                (declare (push_scope st1) "this" (.obj [("__class__", .str tok.value)]))
                cd.members [("__class__", .str tok.value)] with ⟨st4, res⟩
            have h4 : st4.scopes.length = st1.scopes.length + 1 := by
              have := IHnewm
                (declare (push_scope st1) "this" (.obj [("__class__", .str tok.value)]))
                cd.members [("__class__", .str tok.value)]
              rw [hN] at this
              rw [this, declare_len, push_scope_len]
            rcases res with r | inst <;> simp [hN, pop_scope_len, h4, h1]
      | blockN stmts =>
        simp only [interpret]
        simp [pop_scope_len, IHblock, push_scope_len]
      | breakN => rfl
      | continueN => rfl
      | thisN tok =>
        simp only [interpret]
        repeat' split
        all_goals rfl
      | superN tok =>
        simp only [interpret]
        repeat' split
        all_goals rfl
    -- program_stmts
    · intro st l
      rcases l with _ | ⟨s, rest⟩
      · rfl
      · simp only [program_stmts]
        rcases hI : interpret n st s with ⟨st1, r1⟩
        have h1 : st1.scopes.length = st.scopes.length := by
          have := IH st s; rw [hI] at this; exact this
        cases r1 <;> simp [IHprog, h1]
    -- block_stmts
    · intro st l
      rcases l with _ | ⟨s, rest⟩
      · rfl
      · simp only [block_stmts]
        rcases hI : interpret n st s with ⟨st1, r1⟩
        have h1 : st1.scopes.length = st.scopes.length := by
          have := IH st s; rw [hI] at this; exact this
        cases r1 <;> simp [IHblock, h1]
    -- eval_args
    · intro st l
      rcases l with _ | ⟨a, rest⟩
      · rfl
      · simp only [eval_args]
        rcases hI : interpret n st a with ⟨st1, r1⟩
        have h1 : st1.scopes.length = st.scopes.length := by
          have := IH st a; rw [hI] at this; exact this
        cases r1 with
        | val v =>
          rcases hE : eval_args n st1 rest with ⟨st2, ar⟩
          have h2 : st2.scopes.length = st1.scopes.length := by
            have := IHargs st1 rest; rw [hE] at this; exact this
          rcases ar with r | vs <;> simp [hE, h2.trans h1]
        | sig s => simpa using h1
        | err e => simpa using h1
        | fuelOut => simpa using h1
    -- while_loop
    · intro st c b
      simp only [while_loop]
      refine bindV_len _ _ _ (IH st c) ?_
      intro cv
      have h1 : (interpret n st c).1.scopes.length = st.scopes.length := IH st c
      cases cv
      case bool bv =>
        cases bv
        · simp [h1]
        · simp only [Bool.not_true]
          rcases hB : interpret n (interpret n st c).1 b with ⟨st2, r2⟩
          have h2 : st2.scopes.length = st.scopes.length := by
            have := IH (interpret n st c).1 b; rw [hB] at this; exact this.trans h1
          cases r2 with
          | val v => simp [IHwhile, h2]
          | sig s => cases s <;> simp [IHwhile, h2]
          | err e => simpa using h2
          | fuelOut => simpa using h2
      all_goals simpa using h1
    -- do_while_loop
    · intro st b c
      simp only [do_while_loop]
      rcases hB : interpret n st b with ⟨st1, r1⟩
      have h1 : st1.scopes.length = st.scopes.length := by
        have := IH st b; rw [hB] at this; exact this
      cases r1 with
      | val v =>
        refine bindV_len _ _ _ ((IH st1 c).trans h1) ?_
        intro cv
        have h2 : (interpret n st1 c).1.scopes.length = st.scopes.length :=
          (IH st1 c).trans h1
        cases cv
        case bool bv => cases bv <;> simp [IHdo, h2]
        all_goals simpa using h2
      | sig s => cases s <;> simp [IHdo, h1]
      | err e => simpa using h1
      | fuelOut => simpa using h1
    -- for_iter
    · intro st c sE b
      rcases c with _ | ce
      · simp only [for_iter]
        exact IHbody st _ sE b
      · simp only [for_iter]
        refine bindV_len _ _ _ (IH st ce) ?_
        intro cv
        have h1 : (interpret n st ce).1.scopes.length = st.scopes.length := IH st ce
        rcases ht : pyTruthy cv <;> simp [ht, (IHbody _ _ sE b).trans h1, h1]
    -- for_body
    · intro st c sE b
      simp only [for_body]
      rcases hB : interpret n st b with ⟨st1, r1⟩
      have h1 : st1.scopes.length = st.scopes.length := by
        have := IH st b; rw [hB] at this; exact this
      cases r1 with
      | val v => simp [IHstep, h1]
      | sig s => cases s <;> simp [IHstep, h1]
      | err e => simpa using h1
      | fuelOut => simpa using h1
    -- for_step
    · intro st c sE b
      rcases sE with _ | se
      · simp only [for_step]
        exact IHiter st c _ b
      · simp only [for_step]
        refine bindV_len _ _ _ (IH st se) ?_
        intro v
        exact (IHiter _ c _ b).trans (IH st se)
    -- switch_cases
    · intro st v cs d
      rcases cs with _ | ⟨⟨cv, cb⟩, rest⟩
      · rcases d with _ | dE
        · rfl
        · simp only [switch_cases]
          exact IH st dE
      · simp only [switch_cases]
        refine bindV_len _ _ _ (IH st cv) ?_
        intro cvv
        have h1 : (interpret n st cv).1.scopes.length = st.scopes.length := IH st cv
        rcases he : pyEq v cvv <;>
          simp [he, (IH _ cb).trans h1, (IHswitch _ v rest d).trans h1]
    -- try_phase
    · intro st b cs
      simp only [try_phase]
      rcases hB : interpret n st b with ⟨st1, r1⟩
      have h1 : st1.scopes.length = st.scopes.length := by
        have := IH st b; rw [hB] at this; exact this
      cases r1 with
      | err e => cases e <;> simp [IHcatch, h1]
      | val v => simpa using h1
      | sig s => simpa using h1
      | fuelOut => simpa using h1
    -- run_catches
    · intro st er cs
      rcases cs with _ | ⟨⟨vtok, tyTok, body⟩, rest⟩
      · rfl
      · simp only [run_catches]
        split
        · simp [pop_scope_len, declare_len, push_scope_len]
        · rcases hI : interpret n (declare (push_scope st) vtok.value (.str (errStr er))) body
              with ⟨st3, r3⟩
          have h3 : st3.scopes.length = st.scopes.length + 1 := by
            have := IH (declare (push_scope st) vtok.value (.str (errStr er))) body
            rw [hI] at this
            rw [this, declare_len, push_scope_len]
          simp [hI, pop_scope_len, h3]
    -- class_body
    · intro st p hS i m
      simp only [class_body]
      split
      · rfl
      · rcases hM : class_members n st m with ⟨st1, r1⟩
        have h1 : st1.scopes.length = st.scopes.length := by
          have := IHcmem st m; rw [hM] at this; exact this
        cases r1 with
        | val v => cases hS <;> simp [h1]
        | sig s => simpa using h1
        | err e => simpa using h1
        | fuelOut => simpa using h1
    -- class_members
    · intro st m
      rcases m with _ | ⟨mm, rest⟩
      · rfl
      · simp only [class_members]
        rcases hr : class_member_runs mm
        · simp [hr, IHcmem]
        · simp only [hr]
          rcases hI : interpret n st mm with ⟨st1, r1⟩
          have h1 : st1.scopes.length = st.scopes.length := by
            have := IH st mm; rw [hI] at this; exact this
          cases r1 <;> simp [IHcmem, h1]
    -- enum_members
    · intro st m
      rcases m with _ | ⟨mm, rest⟩
      · rfl
      · simp only [enum_members]
        rcases hI : interpret n st mm with ⟨st1, r1⟩
        have h1 : st1.scopes.length = st.scopes.length := by
          have := IH st mm; rw [hI] at this; exact this
        cases r1 <;> simp [IHemem, h1]
    -- new_members
    · intro st m inst
      rcases m with _ | ⟨mm, rest⟩
      · rfl
      · simp only [new_members]
        rcases hD : decl_name? mm with _ | vtok
        · simp only [hD]
          exact IHnewm st rest inst
        · simp only [hD]
          rcases hI : interpret n st mm with ⟨st1, r1⟩
          have h1 : st1.scopes.length = st.scopes.length := by
            have := IH st mm; rw [hI] at this; exact this
          cases r1 with
          | val v =>
            rcases hs : st1.scopes with _ | ⟨f, sfx⟩
            · have h0 : st.scopes.length = 0 := by rw [← h1, hs]; rfl
              simp [hI, hs, h0]
            · rcases hv : aget f vtok.value with _ | fv
              · have h0 : sfx.length + 1 = st.scopes.length := by rw [← h1, hs]; rfl
                simp [hI, hs, hv, h0]
              · simp only [hI, hs, hv]
                rw [IHnewm, declare_len]
                exact h1
          | sig s => simpa [hI] using h1
          | err e => simpa [hI] using h1
          | fuelOut => simpa [hI] using h1

/-- C9: scope-stack balance. Evaluating any AST node leaves the interpreter's
scope stack at exactly the depth it started with — whether the evaluation
produces a value, a break/continue signal, or terminates with an error (and at
any fuel, including exhaustion): every `push_scope` performed by block,
for-loop, function-call, member-call, constructor and catch evaluation is
paired with a `pop_scope` on every exit path, and error returns thread the
state through unchanged in depth. -/
theorem claim9_scope_depth_invariant :
    ∀ fuel st e, ((interpret fuel st e).1).scopes.length = st.scopes.length :=
  fun fuel => (scope_depth_all fuel).1


end Xenon
